import Mathlib

/-!
# Borno interpreter — shallow embedding and verification

This file embeds the core of the Borno language implementation
(`ah-naf/Borno`, a Bengali-script scripting language written in Go) in
Lean 4 and settles a fixed list of claims about it.

Embedding conventions:

* Go `int64` is modelled as `Int`; where 64-bit wraparound matters
  (bitwise operators) the operation goes through `BitVec 64`.
* Go `float64` is modelled as the exact rational type `Fq` below
  (kernel-computable, denominator kept positive).  Every claim under
  study is about value *tags*, error behaviour, or arithmetic on small
  integral values, where exact rational arithmetic coincides with
  IEEE-754 binary64.
* Go `interface{}` runtime values are the tagged union `Value`.
  Reference types (slices, maps, user functions) are modelled as indices
  into arenas carried in the interpreter state, which mirrors Go's
  reference semantics, including pointer identity.
* Go's global error flag plus `return nil` error discipline is modelled
  with `Except`: a runtime error aborts evaluation of the current
  top-level statement, exactly as the flag checks threaded through
  `Interpreter.eval` do.  A Go run-time panic (which the interpreter
  never recovers from) is the distinguished error `Err.goPanic`.
* Evaluation is fuel-indexed; running out of fuel is the artificial
  outcome `Err.fuelOut`, never used to state a property.
-/

namespace Borno

/-- Token kinds, from `token/token.go` (the generation that includes the
bitwise, shift and loop-control kinds referenced by the live scanner). -/
inductive TokenType where
  | LEFT_PAREN | RIGHT_PAREN | LEFT_BRACE | RIGHT_BRACE
  | LEFT_BRACKET | RIGHT_BRACKET | COMMA | DOT | MINUS | PLUS
  | SEMICOLON | SLASH | STAR | AND | OR | XOR | POWER | NOT | MODULO
  | COLON
  | BANG | BANG_EQUAL | EQUAL | EQUAL_EQUAL | GREATER | GREATER_EQUAL
  | LEFT_SHIFT | LESS | LESS_EQUAL | RIGHT_SHIFT
  | IDENTIFIER | STRING | NUMBER
  | BREAK | CONTINUE | LOGICAL_AND | CLASS | ELSE | FALSE | FUN | FOR
  | IF | NIL | LOGICAL_OR | PRINT | RETURN | SUPER | THIS | TRUE | VAR
  | WHILE
  | EOF
deriving DecidableEq, Repr

/-- The native (built-in) callables registered in `NewInterpreter`
(`interpreter/interpreter.go`).  Each Go struct type is one tag; empty
structs of the same type compare equal under Go `==`. -/
inductive NativeFn where
  | clock | len | append | remove | delete | keys | values
  | abs | sqrt | pow | sin | cos | tan | min | max | round | input
deriving DecidableEq, Repr

/-! ### Exact numbers standing in for `float64`

A fraction with a positive denominator.  All operations below preserve
`0 < den`, and every comparison is by cross-multiplication, so the type
is kernel-computable (no gcd normalisation).  Two `Fq` values denote
the same number iff `qEq` holds; Go `float64` equality, zero tests and
ordering are therefore modelled by `qEq`/`qIsZero`/`qLt`, never by
syntactic equality of the representation. -/
structure Fq where
  num : Int
  den : Int
deriving DecidableEq, Repr

/-- Embed an integer. -/
def qOfInt (n : Int) : Fq := ⟨n, 1⟩

def qAdd (a b : Fq) : Fq := ⟨a.num * b.den + b.num * a.den, a.den * b.den⟩

def qSub (a b : Fq) : Fq := ⟨a.num * b.den - b.num * a.den, a.den * b.den⟩

def qMul (a b : Fq) : Fq := ⟨a.num * b.num, a.den * b.den⟩

def qNeg (a : Fq) : Fq := ⟨-a.num, a.den⟩

/-- Division; callers establish the divisor is non-zero first.  The
sign moves to the numerator so the denominator stays positive. -/
def qDiv (a b : Fq) : Fq :=
  if b.num < 0 then ⟨-(a.num * b.den), a.den * (-b.num)⟩
  else ⟨a.num * b.den, a.den * b.num⟩

/-- Value equality (Go `float64` `==`). -/
def qEq (a b : Fq) : Bool := a.num * b.den == b.num * a.den

def qIsZero (a : Fq) : Bool := a.num == 0

def qLt (a b : Fq) : Bool := a.num * b.den < b.num * a.den

def qLe (a b : Fq) : Bool := a.num * b.den ≤ b.num * a.den

/-- Whether the denoted number is an integer (`float64(int64(v)) == v`
in the Go sources). -/
def qIsInt (a : Fq) : Bool := a.num % a.den == 0

/-- Truncation toward zero (Nat division on the absolute value, so the
kernel reduces it). -/
def qTrunc (a : Fq) : Int :=
  if 0 ≤ a.num then (a.num.toNat / a.den.toNat : Nat)
  else -((((-a.num).toNat / a.den.toNat : Nat)) : Int)

/-- Integer power. -/
def qPowNat (a : Fq) (n : Nat) : Fq := ⟨a.num ^ n, a.den ^ n⟩

/-- Runtime values: the dynamic types that flow through
`Interpreter.eval` as Go `interface{}` values.

* `vint`/`vfloat` — Go `int64` / `float64` numbers;
* `vrunes` — a Go `[]rune` (string literals are stored this way by
  `Scanner.stringLiteral`);
* `vstr` — a Go `string` (produced by concatenation and by the `input`
  native);
* `varr`/`vobj`/`vfun` — references (arena indices) to a Go
  `[]interface{}` slice, `map[string]interface{}` object, or
  `*Function`;
* `vnative` — a native callable struct;
* `vhostint` — a Go `int` (NOT `int64`): the type `NativeLenFn.Call`
  returns. -/
inductive Value where
  | vnil
  | vbool (b : Bool)
  | vint (n : Int)
  | vfloat (q : Fq)
  | vrunes (s : List Char)
  | vstr (s : String)
  | varr (r : Nat)
  | vobj (r : Nat)
  | vfun (r : Nat)
  | vnative (f : NativeFn)
  | vhostint (n : Int)
deriving DecidableEq, Repr

/-- Runtime failures.  `rte` is `utils.RuntimeError` (message only; the
source also records a line number, which no claim mentions).  `goPanic`
is an unrecovered Go run-time panic — the host process crashes.
`fuelOut` is the artificial out-of-fuel outcome of the embedding. -/
inductive Err where
  | rte (msg : String)
  | goPanic (msg : String)
  | fuelOut
deriving DecidableEq, Repr

/-- `utils.ConvertBanglaDigitsToASCII` (and the scanner's local
`convertBanglaDigitsToASCII`): substitute each Bengali digit
`০`–`৯` (U+09E6–U+09EF) 1:1 by its ASCII equivalent, all other
characters unchanged. -/
def convertBanglaDigitsToASCII (input : String) : String :=
  String.mk (input.data.map fun r =>
    match r with
    | '০' => '0' | '১' => '1' | '২' => '2' | '৩' => '3' | '৪' => '4'
    | '৫' => '5' | '৬' => '6' | '৭' => '7' | '৮' => '8' | '৯' => '9'
    | c => c)

/-- ASCII digit test used by the number parser model. -/
def isAsciiDigit (c : Char) : Bool := '0' ≤ c && c ≤ '9'

/-- Numeric value of a list of ASCII digits, most significant first. -/
def digitsToNat (cs : List Char) : Nat :=
  cs.foldl (fun a c => 10 * a + (c.toNat - 48)) 0

/-- Model of Go `strconv.ParseFloat` restricted to plain decimal
numerals: optional sign, digits, optional `.` plus digits (at least one
digit overall).  Go additionally accepts exponents, hex floats,
underscores and inf/NaN spellings, none of which any claim exercises. -/
def parseGoFloat (s : String) : Option Fq :=
  let cs := s.data
  let signAndRest : Int × List Char :=
    match cs with
    | '-' :: t => (-1, t)
    | '+' :: t => (1, t)
    | _ => (1, cs)
  let sign := signAndRest.1
  let afterSign := signAndRest.2
  let ip := afterSign.takeWhile isAsciiDigit
  let rest := afterSign.dropWhile isAsciiDigit
  match rest with
  | [] =>
      if ip.isEmpty then none
      else some ⟨sign * (digitsToNat ip : Int), 1⟩
  | '.' :: rest2 =>
      let fp := rest2.takeWhile isAsciiDigit
      let rest3 := rest2.dropWhile isAsciiDigit
      if rest3.isEmpty && !(ip.isEmpty && fp.isEmpty) then
        some ⟨sign * ((digitsToNat ip : Int) * (10 : Int) ^ fp.length +
          (digitsToNat fp : Int)), (10 : Int) ^ fp.length⟩
      else none
  | _ => none

/-- Go `math.Mod x y` for exact inputs: `x - Trunc(x/y)*y`; the result
has the sign of `x`.  (IEEE special cases NaN/Inf do not arise in the
exact model.) -/
def goMod (x y : Fq) : Fq :=
  qSub x (qMul (qOfInt (qTrunc (qDiv x y))) y)

/-- Go `math.Pow` for exact inputs with an integer exponent;
fractional exponents (which no claim exercises) are nominally mapped
to 0. -/
def goPow (l r : Fq) : Fq :=
  if qIsInt r then
    let e := qTrunc r
    if 0 ≤ e then qPowNat l e.toNat
    else if l.num = 0 then ⟨0, 1⟩
    else qDiv ⟨1, 1⟩ (qPowNat l e.natAbs)
  else ⟨0, 1⟩

/-- Go `fmt.Sprintf "%v"` on a `float64`, restricted to the values the
claims print: an integral float prints without a decimal point (Go
prints `float64(1)` as `1`); for non-integral values the fraction is
printed nominally (`num/den`), a case no claim depends on. -/
def goFmtFloat (q : Fq) : String :=
  if q.num % q.den == 0 then toString (qTrunc q)
  else toString q.num ++ "/" ++ toString q.den

/-- 64-bit wraparound of an `Int`, for the bitwise operator results. -/
def wrap64 (n : Int) : Int := (BitVec.ofInt 64 n).toInt

/-- `toNumber` (`interpreter/interpreter.go`): int64 and float64 convert
to float64; a Go `string` is digit-folded and fed to `ParseFloat` — a
numeric string therefore converts successfully; everything else
(including `[]rune` literals and the host `int` from `len`) errors. -/
def toNumber : Value → Except String Fq
  | .vint n => .ok (qOfInt n)
  | .vfloat q => .ok q
  | .vstr s =>
      match parseGoFloat (convertBanglaDigitsToASCII s) with
      | some q => .ok q
      | none => .error ("expected a number, got string \"" ++ s ++ "\"")
  | _ => .error "expected a number, got non-number"

/-- `toInt64` (`interpreter/interpreter.go`): int64 passes through; a
float64 whose value is integral converts; a Go `string` that parses to
an integral float converts; everything else errors. -/
def toInt64 : Value → Except String Int
  | .vint n => .ok n
  | .vfloat q =>
      if qIsInt q then .ok (qTrunc q)
      else .error "expected an integer, got float"
  | .vstr s =>
      match parseGoFloat (convertBanglaDigitsToASCII s) with
      | some q =>
          if qIsInt q then .ok (qTrunc q)
          else .error "expected an integer, got float"
      | none => .error ("expected an integer, got string \"" ++ s ++ "\"")
  | _ => .error "expected an integer, got non-integer"

/-- `stringifyOperand` (`interpreter/interpreter.go`): numbers and
strings stringify; `[]rune` converts via `string(v)`; other values
error. -/
def stringifyOperand : Value → Except String String
  | .vint n => .ok (toString n)
  | .vfloat q => .ok (goFmtFloat q)
  | .vstr s => .ok s
  | .vrunes s => .ok (String.mk s)
  | _ => .error "cannot stringify value"

/-- `isTruthy` (`interpreter/interpreter.go`): nil and false are falsy;
float64, int64 and the host int are truthy iff non-zero; a Go `string`
is truthy iff non-empty; everything else — including a `[]rune` string
literal, even an empty one — falls to the default `true`. -/
def isTruthy : Value → Bool
  | .vnil => false
  | .vbool b => b
  | .vfloat q => !qIsZero q
  | .vstr s => s ≠ ""
  | .vint n => n != 0
  | .vhostint n => n != 0
  | _ => true

/-- `isEqual` (`interpreter/interpreter.go`) is literally Go `a == b` on
two `interface{}` values:

* different dynamic types compare `false` (never equal across tags);
* identical comparable types compare by value (pointers by identity —
  the arena index — and empty native structs of one type are equal);
* identical NON-comparable dynamic types — `[]interface{}` arrays,
  `map[string]interface{}` objects and `[]rune` string literals —
  cause a run-time PANIC, modelled as `none`. -/
def isEqual : Value → Value → Option Bool
  | .vnil, .vnil => some true
  | .vbool a, .vbool b => some (a == b)
  | .vint a, .vint b => some (a == b)
  | .vfloat a, .vfloat b => some (qEq a b)
  | .vstr a, .vstr b => some (a == b)
  | .vhostint a, .vhostint b => some (a == b)
  | .vfun a, .vfun b => some (a == b)
  | .vnative a, .vnative b => some (a == b)
  | .vrunes _, .vrunes _ => none
  | .varr _, .varr _ => none
  | .vobj _, .vobj _ => none
  | _, _ => some false

/-- `handleAddition` (`interpreter/interpreter.go`).  A numeric left
operand first tries `toNumber` on the right (so a numeric Go-string on
the right is ADDED, not concatenated), then falls back to
concatenation with a `string` or `[]rune` right operand; a `string` or
`[]rune` left operand concatenates with any stringifiable right
operand; anything else is "Operands must be numbers or strings.". -/
def handleAddition (left right : Value) : Except Err Value :=
  match left with
  | .vint _ | .vfloat _ =>
      match toNumber left with
      | .error _ => .error (.rte "Left operand must be a number.")
      | .ok leftNum =>
          match toNumber right with
          | .ok rightNum => .ok (.vfloat (qAdd leftNum rightNum))
          | .error _ =>
              match right with
              | .vstr rightStr => .ok (.vstr (goFmtFloat leftNum ++ rightStr))
              | .vrunes rightStr =>
                  .ok (.vstr (goFmtFloat leftNum ++ String.mk rightStr))
              | _ => .error (.rte "Operands must be numbers or strings.")
  | .vstr l =>
      match stringifyOperand right with
      | .ok rightStr => .ok (.vstr (l ++ rightStr))
      | .error _ => .error (.rte "Right operand must be a string or number.")
  | .vrunes l =>
      match right with
      | .vrunes r => .ok (.vstr (String.mk l ++ String.mk r))
      | .vstr r => .ok (.vstr (String.mk l ++ r))
      | _ =>
          match stringifyOperand right with
          | .ok rightStr => .ok (.vstr (String.mk l ++ rightStr))
          | .error _ =>
              .error (.rte "Right operand must be a string or number.")
  | _ => .error (.rte "Operands must be numbers or strings.")

/-- `handleArithmetic` (`interpreter/interpreter.go`): `-`, `*`, `/` on
`toNumber`-convertible operands, always yielding a float64; division by
a zero right operand is "Division by zero.". -/
def handleArithmetic (left : Value) (op : TokenType) (right : Value) :
    Except Err Value :=
  match toNumber left with
  | .error _ => .error (.rte "Left operand must be a number.")
  | .ok leftNum =>
      match toNumber right with
      | .error _ => .error (.rte "Right operand must be a number.")
      | .ok rightNum =>
          match op with
          | .MINUS => .ok (.vfloat (qSub leftNum rightNum))
          | .STAR => .ok (.vfloat (qMul leftNum rightNum))
          | .SLASH =>
              if qIsZero rightNum then .error (.rte "Division by zero.")
              else .ok (.vfloat (qDiv leftNum rightNum))
          | _ => .ok .vnil

/-- `handleEquality` (`interpreter/interpreter.go`): `isEqual`, negated
for `!=`.  An `isEqual` panic crashes the host. -/
def handleEquality (left : Value) (op : TokenType) (right : Value) :
    Except Err Value :=
  match isEqual left right with
  | none => .error (.goPanic "runtime error: comparing uncomparable type")
  | some eq =>
      if op = .BANG_EQUAL then .ok (.vbool (!eq)) else .ok (.vbool eq)

/-- `handleComparison` (`interpreter/interpreter.go`): `<`, `<=`, `>`,
`>=` on `toNumber`-convertible operands. -/
def handleComparison (left : Value) (op : TokenType) (right : Value) :
    Except Err Value :=
  match toNumber left with
  | .error _ => .error (.rte "Left operand must be a number.")
  | .ok leftNum =>
      match toNumber right with
      | .error _ => .error (.rte "Right operand must be a number.")
      | .ok rightNum =>
          match op with
          | .GREATER => .ok (.vbool (qLt rightNum leftNum))
          | .GREATER_EQUAL => .ok (.vbool (qLe rightNum leftNum))
          | .LESS => .ok (.vbool (qLt leftNum rightNum))
          | .LESS_EQUAL => .ok (.vbool (qLe leftNum rightNum))
          | _ => .ok .vnil

/-- `handleBitwise` (`interpreter/interpreter.go`): `&`, `|`, `^`,
`<<`, `>>` on `toInt64`-convertible operands, with int64 wraparound;
a negative shift count panics in Go. -/
def handleBitwise (left : Value) (op : TokenType) (right : Value) :
    Except Err Value :=
  match toInt64 left with
  | .error _ => .error (.rte "Left operand must be an integer.")
  | .ok leftInt =>
      match toInt64 right with
      | .error _ => .error (.rte "Right operand must be an integer.")
      | .ok rightInt =>
          match op with
          | .AND => .ok (.vint ((BitVec.ofInt 64 leftInt &&&
              BitVec.ofInt 64 rightInt).toInt))
          | .OR => .ok (.vint ((BitVec.ofInt 64 leftInt |||
              BitVec.ofInt 64 rightInt).toInt))
          | .XOR => .ok (.vint ((BitVec.ofInt 64 leftInt ^^^
              BitVec.ofInt 64 rightInt).toInt))
          | .LEFT_SHIFT =>
              if rightInt < 0 then
                .error (.goPanic "runtime error: negative shift amount")
              else .ok (.vint ((BitVec.ofInt 64 leftInt <<<
                rightInt.toNat).toInt))
          | .RIGHT_SHIFT =>
              if rightInt < 0 then
                .error (.goPanic "runtime error: negative shift amount")
              else .ok (.vint ((BitVec.ofInt 64 leftInt).sshiftRight
                rightInt.toNat |>.toInt))
          | .POWER => .ok (.vint (wrap64 (qTrunc (goPow (qOfInt leftInt)
              (qOfInt rightInt)))))
          | _ => .ok .vnil

/-- `evaluateBinary` (`interpreter/interpreter.go`): dispatch on the
operator token; `%` and `**` are handled inline, `%` with the same
"Division by zero." check as `/`. -/
def evaluateBinary (left : Value) (op : TokenType) (right : Value) :
    Except Err Value :=
  match op with
  | .PLUS => handleAddition left right
  | .MINUS | .STAR | .SLASH => handleArithmetic left op right
  | .EQUAL_EQUAL | .BANG_EQUAL => handleEquality left op right
  | .GREATER | .GREATER_EQUAL | .LESS | .LESS_EQUAL =>
      handleComparison left op right
  | .AND | .OR | .XOR | .LEFT_SHIFT | .RIGHT_SHIFT =>
      handleBitwise left op right
  | .POWER =>
      match toNumber left with
      | .error _ => .error (.rte "Left operand must be a number.")
      | .ok leftFloat =>
          match toNumber right with
          | .error _ => .error (.rte "Right operand must be a number.")
          | .ok rightFloat => .ok (.vfloat (goPow leftFloat rightFloat))
  | .MODULO =>
      match toNumber left with
      | .error _ => .error (.rte "Left operand must be a number.")
      | .ok leftNum =>
          match toNumber right with
          | .error _ => .error (.rte "Right operand must be a number.")
          | .ok rightNum =>
              if qIsZero rightNum then .error (.rte "Division by zero.")
              else .ok (.vfloat (goMod leftNum rightNum))
  | _ => .error (.rte "Unknown binary operator")

/-- `evaluateUnary` (`interpreter/interpreter.go`): `-` negates a
`toNumber`-convertible operand (reporting `toNumber`'s own message),
`!` complements truthiness, `~` complements a `toInt64`-convertible
operand. -/
def evaluateUnary (op : TokenType) (right : Value) : Except Err Value :=
  match op with
  | .MINUS =>
      match toNumber right with
      | .ok v => .ok (.vfloat (qNeg v))
      | .error e => .error (.rte e)
  | .BANG => .ok (.vbool (!isTruthy right))
  | .NOT =>
      match toInt64 right with
      | .ok v => .ok (.vint (wrap64 (-(v + 1))))
      | .error e => .error (.rte e)
  | _ => .error (.rte "Unknown unary operator")

end Borno

namespace Borno

/-! ## Lexer keyword table (`lexer/scanner.go`) -/

/-- The scanner's keyword map, entry for entry from `lexer/scanner.go`
lines 12–30.  Note that it maps `print` to PRINT but contains NO entry
for the Bengali print keyword `দেখাও`. -/
def scannerKeywords : List (String × TokenType) :=
  [("ফাংশন", .FUN), ("ধরি", .VAR), ("ফর", .FOR), ("যদি", .IF),
   ("নাহয়", .ELSE), ("যতক্ষণ", .WHILE), ("সত্য", .TRUE),
   ("মিথ্যা", .FALSE), ("nil", .NIL), ("print", .PRINT),
   ("ফেরত", .RETURN), ("থামো", .BREAK), ("চালিয়ে_যাও", .CONTINUE),
   ("এবং", .LOGICAL_AND), ("বা", .LOGICAL_OR)]

/-- `Scanner.identifier` (`lexer/scanner.go` lines 171–182), after the
maximal alphanumeric run `text` has been consumed: emit the keyword's
token kind when `text` is in the keyword map, IDENTIFIER otherwise. -/
def identifierTokenType (text : String) : TokenType :=
  match scannerKeywords.lookup text with
  | some k => k
  | none => .IDENTIFIER

/-! ## AST (`ast/expr.go`, `ast/stmt.go`)

Go models statements and expressions as one interface hierarchy
(`ast.Stmt` embeds `ast.Expr`) and `Interpreter.eval` dispatches on the
dynamic node type; the embedding mirrors that with a single inductive.
Token-typed fields keep only the components the evaluator reads
(lexeme and/or line). -/

inductive Expr where
  | literal (v : Value) (line : Nat)
  | grouping (e : Expr) (line : Nat)
  | unary (op : TokenType) (right : Expr) (line : Nat)
  | binary (left : Expr) (op : TokenType) (right : Expr) (line : Nat)
  | logical (left : Expr) (op : TokenType) (right : Expr)
  | identifier (name : String) (line : Nat)
  | call (callee : Expr) (parenLine : Nat) (args : List Expr)
  | arrayLiteral (elems : List Expr)
  | arrayAccess (arr : Expr) (idx : Expr) (line : Nat)
  | objectLiteral (props : List (String × Expr))
  | propertyAccess (obj : Expr) (prop : String) (line : Nat)
  | exprStmt (e : Expr)
  | printStmt (e : Expr)
  | varStmt (name : String) (init : Option Expr) (line : Nat)
  | varListStmt (decls : List Expr)
  | assignmentStmt (name : String) (value : Expr) (line : Nat)
  | arrayAssignment (arr : Expr) (idx : Expr) (value : Expr) (line : Nat)
  | propertyAssignment (obj : Expr) (prop : String) (value : Expr) (line : Nat)
  | blockStmt (stmts : List Expr)
  | ifStmt (cond : Expr) (thenB : Expr) (elseB : Option Expr)
  | whileStmt (cond : Expr) (body : Expr)
  | forStmt (init : Option Expr) (cond : Option Expr) (inc : Option Expr)
      (body : Expr)
  | breakStmt (line : Nat)
  | continueStmt (line : Nat)
  | returnStmt (value : Option Expr)
  | functionStmt (name : String) (params : List String) (body : List Expr)
deriving Repr

/-! ## Parser (`parser/parser.go`) -/

/-- A scanned token: kind, lexeme, literal payload (`Value.vnil` when
absent; `vfloat` for NUMBER, `vrunes` for STRING) and 1-based line. -/
structure Token where
  ttype : TokenType
  lexeme : String
  lit : Value
  line : Nat
deriving DecidableEq, Repr

/-- Parser state: the token list and the `current` cursor. -/
structure PSt where
  tokens : List Token
  current : Nat
deriving Repr

/-- Fallback token for an out-of-range read.  The Go parser never reads
past the terminating EOF token (`isAtEnd` guards every cursor move), so
this fallback is unreachable on scanner-produced streams. -/
def eofTok : Token := ⟨.EOF, "", .vnil, 0⟩

def pPeek (p : PSt) : Token := p.tokens.getD p.current eofTok

def pIsAtEnd (p : PSt) : Bool := (pPeek p).ttype == .EOF

def pAdvance (p : PSt) : PSt :=
  if pIsAtEnd p then p else { p with current := p.current + 1 }

def pPrevious (p : PSt) : Token := p.tokens.getD (p.current - 1) eofTok

def pCheck (p : PSt) (t : TokenType) : Bool :=
  if pIsAtEnd p then false else (pPeek p).ttype == t

/-- `Parser.match` on one kind: check and advance on success. -/
def pMatch1 (p : PSt) (t : TokenType) : Bool × PSt :=
  if pCheck p t then (true, pAdvance p) else (false, p)

/-- `Parser.match` on several kinds. -/
def pMatchAny (p : PSt) (ts : List TokenType) : Bool × PSt :=
  if ts.any (fun t => pCheck p t) then (true, pAdvance p) else (false, p)

/-- `Parser.consume`: advance past a token of the expected kind or fail
with the given message (reported through `Parser.error`). -/
def pConsume (p : PSt) (t : TokenType) (msg : String) :
    Except String (Token × PSt) :=
  if pCheck p t then .ok (pPeek p, pAdvance p) else .error msg

/-- `reservedIdentifiers` (`parser/parser.go` lines 11–30): the built-in
function names, which may not be declared as variables or functions. -/
def reservedIdentifiers : List String :=
  ["ক্লক", "লেন", "এড", "রিমুভ", "কি_রিমুভ", "অব্জেক্ট_কি",
   "অব্জেক্ট_মান", "পরমমান", "বর্গমূল", "ঘাত", "সাইন", "কসাইন",
   "ট্যান", "সর্বনিম্ন", "সর্বোচ্চ", "রাউন্ড", "input", "ইনপুট"]

/-- Message when the parser runs out of fuel (artificial; the Go parser
always terminates because every loop consumes a token). -/
def pFuelMsg : String := "parser fuel exhausted"

mutual

/-- `Parser.Parse`: parse declarations until EOF; the first error
aborts and no statement list is produced. -/
def pParse : Nat → PSt → Except String (List Expr × PSt)
  | 0, _ => .error pFuelMsg
  | fuel + 1, p =>
      if pIsAtEnd p then .ok ([], p)
      else do
        let (stmt, p) ← pDeclaration fuel p
        let (rest, p) ← pParse fuel p
        .ok (stmt :: rest, p)
  termination_by structural fuel => fuel

/-- `Parser.declaration`: function declaration, variable declaration, or
statement. -/
def pDeclaration : Nat → PSt → Except String (Expr × PSt)
  | 0, _ => .error pFuelMsg
  | fuel + 1, p =>
      match pMatch1 p .FUN with
      | (true, p) => pFunction fuel p
      | (false, p) =>
          match pMatch1 p .VAR with
          | (true, p) => pVarDeclaration fuel p
          | (false, p) => pStatement fuel p
  termination_by structural fuel => fuel

/-- `Parser.varDeclaration`: a comma-separated declarator list ended by
`;`.  Each declarator name is consumed, rejected when reserved, then
optionally initialised; unless the initializer is an array or object
literal, the token after the declarator must still be on the starting
line. -/
def pVarDeclaration : Nat → PSt → Except String (Expr × PSt)
  | 0, _ => .error pFuelMsg
  | fuel + 1, p => do
      let initialLine := (pPeek p).line
      let (decls, p) ← pVarDeclLoop fuel initialLine p
      let (_, p) ← pConsume p .SEMICOLON
        "Expect ';' after variable declaration."
      match decls with
      | [d] => .ok (d, p)
      | _ => .ok (.varListStmt decls, p)

/-- One iteration of the declarator loop inside `varDeclaration`. -/
def pVarDeclLoop : Nat → Nat → PSt → Except String (List Expr × PSt)
  | 0, _, _ => .error pFuelMsg
  | fuel + 1, initialLine, p => do
      let (name, p) ← pConsume p .IDENTIFIER "Expect variable name."
      if reservedIdentifiers.contains name.lexeme then
        .error ("'" ++ name.lexeme ++
          "' is a reserved identifier and cannot be used as a variable name.")
      else do
        let (hasInit, p) := pMatch1 p .EQUAL
        let (initializer, p) ←
          if hasInit then do
            let (v, p) ← pExpression fuel p
            pure (some v, p)
          else pure ((none : Option Expr), p)
        let declaration := Expr.varStmt name.lexeme initializer name.line
        let lineOk :=
          match initializer with
          | some (.objectLiteral _) => true
          | some (.arrayLiteral _) => true
          | _ => (pPeek p).line == initialLine
        if !lineOk then .error "Expect ';' before newline."
        else
          match pMatch1 p .COMMA with
          | (true, p) => do
              let (rest, p) ← pVarDeclLoop fuel initialLine p
              .ok (declaration :: rest, p)
          | (false, p) => .ok ([declaration], p)
  termination_by structural fuel => fuel

/-- `Parser.statement`: dispatch on the leading keyword. -/
def pStatement : Nat → PSt → Except String (Expr × PSt)
  | 0, _ => .error pFuelMsg
  | fuel + 1, p =>
      match pMatch1 p .IF with
      | (true, p) => pIfStatement fuel p
      | (false, p) =>
      match pMatch1 p .WHILE with
      | (true, p) => pWhile fuel p
      | (false, p) =>
      match pMatch1 p .FOR with
      | (true, p) => pForStatement fuel p
      | (false, p) =>
      match pMatch1 p .PRINT with
      | (true, p) => pPrintStatement fuel p
      | (false, p) =>
      match pMatch1 p .RETURN with
      | (true, p) => pReturnStatement fuel p
      | (false, p) =>
      match pMatch1 p .BREAK with
      | (true, p) => do
          let (_, p) ← pConsume p .SEMICOLON "Expected ; after break."
          .ok (.breakStmt (pPrevious p).line, p)
      | (false, p) =>
      match pMatch1 p .CONTINUE with
      | (true, p) => do
          let (_, p) ← pConsume p .SEMICOLON "Expected ; after continue."
          .ok (.continueStmt (pPrevious p).line, p)
      | (false, p) =>
      match pMatch1 p .LEFT_BRACE with
      | (true, p) => do
          let (blocks, p) ← pBlock fuel p
          .ok (.blockStmt blocks, p)
      | (false, p) => pExpressionStatement fuel p
  termination_by structural fuel => fuel

/-- `Parser.forStatement`: `( init? ; cond? ; inc? )` then the body; a
missing condition becomes the literal `true`. -/
def pForStatement : Nat → PSt → Except String (Expr × PSt)
  | 0, _ => .error pFuelMsg
  | fuel + 1, p => do
      let (_, p) ← pConsume p .LEFT_PAREN "Expect '(' after 'for'."
      let (initializer, p) ←
        match pMatch1 p .SEMICOLON with
        | (true, p) => pure ((none : Option Expr), p)
        | (false, p) =>
            match pMatch1 p .VAR with
            | (true, p) => do
                let (s, p) ← pVarDeclaration fuel p
                pure (some s, p)
            | (false, p) => do
                let (s, p) ← pExpressionStatement fuel p
                pure (some s, p)
      let (condition, p) ←
        if pCheck p .SEMICOLON then pure ((none : Option Expr), p)
        else do
          let (c, p) ← pExpression fuel p
          pure (some c, p)
      let (_, p) ← pConsume p .SEMICOLON "Expect ';' after loop condition."
      let (increment, p) ←
        if pCheck p .RIGHT_PAREN then pure ((none : Option Expr), p)
        else do
          let (c, p) ← pExpression fuel p
          pure (some c, p)
      let (_, p) ← pConsume p .RIGHT_PAREN "Expect ')' after for clauses."
      let (body, p) ← pStatement fuel p
      let condition := match condition with
        | none => some (Expr.literal (.vbool true) 0)
        | c => c
      .ok (.forStmt initializer condition increment body, p)
  termination_by structural fuel => fuel

/-- `Parser.while`. -/
def pWhile : Nat → PSt → Except String (Expr × PSt)
  | 0, _ => .error pFuelMsg
  | fuel + 1, p => do
      let (_, p) ← pConsume p .LEFT_PAREN "Expect '(' after 'while'."
      let (condition, p) ← pExpression fuel p
      let (_, p) ← pConsume p .RIGHT_PAREN "Expect ')' after condition."
      let (body, p) ← pStatement fuel p
      .ok (.whileStmt condition body, p)
  termination_by structural fuel => fuel

/-- `Parser.IfStatement`. -/
def pIfStatement : Nat → PSt → Except String (Expr × PSt)
  | 0, _ => .error pFuelMsg
  | fuel + 1, p => do
      let (_, p) ← pConsume p .LEFT_PAREN "Expect '(' after 'if'."
      let (condition, p) ← pExpression fuel p
      let (_, p) ← pConsume p .RIGHT_PAREN "Expect ')' after if condition."
      let (thenBranch, p) ← pStatement fuel p
      match pMatch1 p .ELSE with
      | (true, p) => do
          let (elseBranch, p) ← pStatement fuel p
          .ok (.ifStmt condition thenBranch (some elseBranch), p)
      | (false, p) => .ok (.ifStmt condition thenBranch none, p)
  termination_by structural fuel => fuel

/-- `Parser.printStatement`. -/
def pPrintStatement : Nat → PSt → Except String (Expr × PSt)
  | 0, _ => .error pFuelMsg
  | fuel + 1, p => do
      let (value, p) ← pExpression fuel p
      let (_, p) ← pConsume p .SEMICOLON "Expect ';' after value."
      .ok (.printStmt value, p)

/-- `Parser.returnStatement`. -/
def pReturnStatement : Nat → PSt → Except String (Expr × PSt)
  | 0, _ => .error pFuelMsg
  | fuel + 1, p => do
      let (value, p) ←
        if pCheck p .SEMICOLON then pure ((none : Option Expr), p)
        else do
          let (v, p) ← pExpression fuel p
          pure (some v, p)
      let (_, p) ← pConsume p .SEMICOLON "Expect ';' after return value."
      .ok (.returnStmt value, p)

/-- `Parser.expressionStatement`. -/
def pExpressionStatement : Nat → PSt → Except String (Expr × PSt)
  | 0, _ => .error pFuelMsg
  | fuel + 1, p => do
      let (value, p) ← pExpression fuel p
      let (_, p) ← pConsume p .SEMICOLON "Expect ';' after value."
      .ok (.exprStmt value, p)

/-- `Parser.function`: name (rejected when reserved), parameter list
(at most 255), then a block body. -/
def pFunction : Nat → PSt → Except String (Expr × PSt)
  | 0, _ => .error pFuelMsg
  | fuel + 1, p => do
      let (name, p) ← pConsume p .IDENTIFIER "Expect function name."
      if reservedIdentifiers.contains name.lexeme then
        .error ("'" ++ name.lexeme ++
          "' is a reserved identifier and cannot be used as a function name.")
      else do
        let (_, p) ← pConsume p .LEFT_PAREN "Expect '(' after function name."
        let (parameters, p) ←
          if pCheck p .RIGHT_PAREN then pure (([] : List String), p)
          else pParamsLoop fuel 0 p
        let (_, p) ← pConsume p .RIGHT_PAREN "Expect ')' after parameters."
        let (_, p) ← pConsume p .LEFT_BRACE "Expect '\x7b' before function body."
        let (body, p) ← pBlock fuel p
        .ok (.functionStmt name.lexeme parameters body, p)
  termination_by structural fuel => fuel

/-- Parameter-list loop inside `Parser.function`. -/
def pParamsLoop : Nat → Nat → PSt → Except String (List String × PSt)
  | 0, _, _ => .error pFuelMsg
  | fuel + 1, count, p => do
      if count ≥ 255 then .error "Can't have more than 255 parameters."
      else do
        let (pp, p) ← pConsume p .IDENTIFIER "Expect parameter name."
        match pMatch1 p .COMMA with
        | (true, p) => do
            let (rest, p) ← pParamsLoop fuel (count + 1) p
            .ok (pp.lexeme :: rest, p)
        | (false, p) => .ok ([pp.lexeme], p)
  termination_by structural fuel => fuel

/-- `Parser.block`: declarations until `}`. -/
def pBlock : Nat → PSt → Except String (List Expr × PSt)
  | 0, _ => .error pFuelMsg
  | fuel + 1, p =>
      if !(pCheck p .RIGHT_BRACE) && !(pIsAtEnd p) then do
        let (decl, p) ← pDeclaration fuel p
        let (rest, p) ← pBlock fuel p
        .ok (decl :: rest, p)
      else do
        let (_, p) ← pConsume p .RIGHT_BRACE "Expect '\x7d' after block."
        .ok ([], p)
  termination_by structural fuel => fuel

/-- `Parser.expression` = assignment. -/
def pExpression : Nat → PSt → Except String (Expr × PSt)
  | 0, _ => .error pFuelMsg
  | fuel + 1, p => pAssignment fuel p
  termination_by structural fuel => fuel

/-- `Parser.assignment`: parse a `logicalOR`; on `=`, recurse and
rewrite the left-hand side by node kind — Identifier, ArrayAccess or
PropertyAccess — otherwise "Invalid assignment target.". -/
def pAssignment : Nat → PSt → Except String (Expr × PSt)
  | 0, _ => .error pFuelMsg
  | fuel + 1, p => do
      let (expr, p) ← pLogicalOR fuel p
      match pMatch1 p .EQUAL with
      | (true, p) => do
          let equalLine := (pPrevious p).line
          let (value, p) ← pAssignment fuel p
          match expr with
          | .identifier name _ => .ok (.assignmentStmt name value equalLine, p)
          | .arrayAccess arr idx _ =>
              .ok (.arrayAssignment arr idx value equalLine, p)
          | .propertyAccess obj prop _ =>
              .ok (.propertyAssignment obj prop value equalLine, p)
          | _ => .error "Invalid assignment target."
      | (false, p) => .ok (expr, p)
  termination_by structural fuel => fuel

/-- `Parser.logicalOR` (left-associative chain). -/
def pLogicalOR : Nat → PSt → Except String (Expr × PSt)
  | 0, _ => .error pFuelMsg
  | fuel + 1, p => do
      let (expr, p) ← pLogicalAnd fuel p
      pLogicalORLoop fuel expr p
  termination_by structural fuel => fuel

def pLogicalORLoop : Nat → Expr → PSt → Except String (Expr × PSt)
  | 0, _, _ => .error pFuelMsg
  | fuel + 1, expr, p =>
      match pMatch1 p .LOGICAL_OR with
      | (true, p) => do
          let op := (pPrevious p).ttype
          let (right, p) ← pLogicalAnd fuel p
          pLogicalORLoop fuel (.logical expr op right) p
      | (false, p) => .ok (expr, p)
  termination_by structural fuel => fuel

def pLogicalAnd : Nat → PSt → Except String (Expr × PSt)
  | 0, _ => .error pFuelMsg
  | fuel + 1, p => do
      let (expr, p) ← pBitwiseOR fuel p
      pLogicalAndLoop fuel expr p
  termination_by structural fuel => fuel

def pLogicalAndLoop : Nat → Expr → PSt → Except String (Expr × PSt)
  | 0, _, _ => .error pFuelMsg
  | fuel + 1, expr, p =>
      match pMatch1 p .LOGICAL_AND with
      | (true, p) => do
          let op := (pPrevious p).ttype
          let (right, p) ← pBitwiseOR fuel p
          pLogicalAndLoop fuel (.logical expr op right) p
      | (false, p) => .ok (expr, p)
  termination_by structural fuel => fuel

def pBitwiseOR : Nat → PSt → Except String (Expr × PSt)
  | 0, _ => .error pFuelMsg
  | fuel + 1, p => do
      let (expr, p) ← pBitwiseXOR fuel p
      pBitwiseORLoop fuel expr p
  termination_by structural fuel => fuel

def pBitwiseORLoop : Nat → Expr → PSt → Except String (Expr × PSt)
  | 0, _, _ => .error pFuelMsg
  | fuel + 1, expr, p =>
      match pMatch1 p .OR with
      | (true, p) => do
          let t := pPrevious p
          let (right, p) ← pBitwiseXOR fuel p
          pBitwiseORLoop fuel (.binary expr t.ttype right t.line) p
      | (false, p) => .ok (expr, p)
  termination_by structural fuel => fuel

def pBitwiseXOR : Nat → PSt → Except String (Expr × PSt)
  | 0, _ => .error pFuelMsg
  | fuel + 1, p => do
      let (expr, p) ← pBitwiseAND fuel p
      pBitwiseXORLoop fuel expr p
  termination_by structural fuel => fuel

def pBitwiseXORLoop : Nat → Expr → PSt → Except String (Expr × PSt)
  | 0, _, _ => .error pFuelMsg
  | fuel + 1, expr, p =>
      match pMatch1 p .XOR with
      | (true, p) => do
          let t := pPrevious p
          let (right, p) ← pBitwiseAND fuel p
          pBitwiseXORLoop fuel (.binary expr t.ttype right t.line) p
      | (false, p) => .ok (expr, p)
  termination_by structural fuel => fuel

def pBitwiseAND : Nat → PSt → Except String (Expr × PSt)
  | 0, _ => .error pFuelMsg
  | fuel + 1, p => do
      let (expr, p) ← pEquality fuel p
      pBitwiseANDLoop fuel expr p
  termination_by structural fuel => fuel

def pBitwiseANDLoop : Nat → Expr → PSt → Except String (Expr × PSt)
  | 0, _, _ => .error pFuelMsg
  | fuel + 1, expr, p =>
      match pMatch1 p .AND with
      | (true, p) => do
          let t := pPrevious p
          let (right, p) ← pEquality fuel p
          pBitwiseANDLoop fuel (.binary expr t.ttype right t.line) p
      | (false, p) => .ok (expr, p)
  termination_by structural fuel => fuel

def pEquality : Nat → PSt → Except String (Expr × PSt)
  | 0, _ => .error pFuelMsg
  | fuel + 1, p => do
      let (expr, p) ← pComparison fuel p
      pEqualityLoop fuel expr p
  termination_by structural fuel => fuel

def pEqualityLoop : Nat → Expr → PSt → Except String (Expr × PSt)
  | 0, _, _ => .error pFuelMsg
  | fuel + 1, expr, p =>
      match pMatchAny p [.BANG_EQUAL, .EQUAL_EQUAL] with
      | (true, p) => do
          let t := pPrevious p
          let (right, p) ← pComparison fuel p
          pEqualityLoop fuel (.binary expr t.ttype right t.line) p
      | (false, p) => .ok (expr, p)
  termination_by structural fuel => fuel

def pComparison : Nat → PSt → Except String (Expr × PSt)
  | 0, _ => .error pFuelMsg
  | fuel + 1, p => do
      let (expr, p) ← pShift fuel p
      pComparisonLoop fuel expr p
  termination_by structural fuel => fuel

def pComparisonLoop : Nat → Expr → PSt → Except String (Expr × PSt)
  | 0, _, _ => .error pFuelMsg
  | fuel + 1, expr, p =>
      match pMatchAny p [.GREATER, .GREATER_EQUAL, .LESS, .LESS_EQUAL] with
      | (true, p) => do
          let t := pPrevious p
          let (right, p) ← pShift fuel p
          pComparisonLoop fuel (.binary expr t.ttype right t.line) p
      | (false, p) => .ok (expr, p)
  termination_by structural fuel => fuel

def pShift : Nat → PSt → Except String (Expr × PSt)
  | 0, _ => .error pFuelMsg
  | fuel + 1, p => do
      let (expr, p) ← pTerm fuel p
      pShiftLoop fuel expr p
  termination_by structural fuel => fuel

def pShiftLoop : Nat → Expr → PSt → Except String (Expr × PSt)
  | 0, _, _ => .error pFuelMsg
  | fuel + 1, expr, p =>
      match pMatchAny p [.LEFT_SHIFT, .RIGHT_SHIFT] with
      | (true, p) => do
          let t := pPrevious p
          let (right, p) ← pTerm fuel p
          pShiftLoop fuel (.binary expr t.ttype right t.line) p
      | (false, p) => .ok (expr, p)
  termination_by structural fuel => fuel

def pTerm : Nat → PSt → Except String (Expr × PSt)
  | 0, _ => .error pFuelMsg
  | fuel + 1, p => do
      let (expr, p) ← pFactor fuel p
      pTermLoop fuel expr p
  termination_by structural fuel => fuel

def pTermLoop : Nat → Expr → PSt → Except String (Expr × PSt)
  | 0, _, _ => .error pFuelMsg
  | fuel + 1, expr, p =>
      match pMatchAny p [.MINUS, .PLUS] with
      | (true, p) => do
          let t := pPrevious p
          let (right, p) ← pFactor fuel p
          pTermLoop fuel (.binary expr t.ttype right t.line) p
      | (false, p) => .ok (expr, p)
  termination_by structural fuel => fuel

def pFactor : Nat → PSt → Except String (Expr × PSt)
  | 0, _ => .error pFuelMsg
  | fuel + 1, p => do
      let (expr, p) ← pPower fuel p
      pFactorLoop fuel expr p
  termination_by structural fuel => fuel

def pFactorLoop : Nat → Expr → PSt → Except String (Expr × PSt)
  | 0, _, _ => .error pFuelMsg
  | fuel + 1, expr, p =>
      match pMatchAny p [.SLASH, .STAR, .MODULO] with
      | (true, p) => do
          let t := pPrevious p
          let (right, p) ← pPower fuel p
          pFactorLoop fuel (.binary expr t.ttype right t.line) p
      | (false, p) => .ok (expr, p)
  termination_by structural fuel => fuel

def pPower : Nat → PSt → Except String (Expr × PSt)
  | 0, _ => .error pFuelMsg
  | fuel + 1, p => do
      let (expr, p) ← pUnary fuel p
      pPowerLoop fuel expr p
  termination_by structural fuel => fuel

def pPowerLoop : Nat → Expr → PSt → Except String (Expr × PSt)
  | 0, _, _ => .error pFuelMsg
  | fuel + 1, expr, p =>
      match pMatch1 p .POWER with
      | (true, p) => do
          let t := pPrevious p
          let (right, p) ← pUnary fuel p
          pPowerLoop fuel (.binary expr t.ttype right t.line) p
      | (false, p) => .ok (expr, p)
  termination_by structural fuel => fuel

/-- `Parser.unary`: `!`, `-`, `~` prefix operators, right-recursive. -/
def pUnary : Nat → PSt → Except String (Expr × PSt)
  | 0, _ => .error pFuelMsg
  | fuel + 1, p =>
      match pMatchAny p [.BANG, .MINUS, .NOT] with
      | (true, p) => do
          let t := pPrevious p
          let (right, p) ← pUnary fuel p
          .ok (.unary t.ttype right t.line, p)
      | (false, p) => pCall fuel p
  termination_by structural fuel => fuel

/-- `Parser.call`: a primary followed by any chain of call argument
lists, index brackets and property accesses. -/
def pCall : Nat → PSt → Except String (Expr × PSt)
  | 0, _ => .error pFuelMsg
  | fuel + 1, p => do
      let (expr, p) ← pPrimary fuel p
      pCallLoop fuel expr p
  termination_by structural fuel => fuel

def pCallLoop : Nat → Expr → PSt → Except String (Expr × PSt)
  | 0, _, _ => .error pFuelMsg
  | fuel + 1, expr, p =>
      match pMatch1 p .LEFT_PAREN with
      | (true, p) => do
          let (expr, p) ← pFinishCall fuel expr p
          pCallLoop fuel expr p
      | (false, p) =>
      match pMatch1 p .LEFT_BRACKET with
      | (true, p) => do
          let (index, p) ← pExpression fuel p
          let (_, p) ← pConsume p .RIGHT_BRACKET "Expect ']' after array index."
          pCallLoop fuel (.arrayAccess expr index (pPrevious p).line) p
      | (false, p) =>
      match pMatch1 p .DOT with
      | (true, p) => do
          let (propName, p) ← pConsume p .IDENTIFIER
            "Expect property name after '.'."
          pCallLoop fuel (.propertyAccess expr propName.lexeme
            (pPrevious p).line) p
      | (false, p) => .ok (expr, p)
  termination_by structural fuel => fuel

/-- `Parser.finishCall`: the argument list and closing paren. -/
def pFinishCall : Nat → Expr → PSt → Except String (Expr × PSt)
  | 0, _, _ => .error pFuelMsg
  | fuel + 1, callee, p => do
      let (arguments, p) ←
        if pCheck p .RIGHT_PAREN then pure (([] : List Expr), p)
        else pArgsLoop fuel p
      let (paren, p) ← pConsume p .RIGHT_PAREN "Expect ')' after arguments."
      .ok (.call callee paren.line arguments, p)
  termination_by structural fuel => fuel

def pArgsLoop : Nat → PSt → Except String (List Expr × PSt)
  | 0, _ => .error pFuelMsg
  | fuel + 1, p => do
      let (arg, p) ← pExpression fuel p
      match pMatch1 p .COMMA with
      | (true, p) => do
          let (rest, p) ← pArgsLoop fuel p
          .ok (arg :: rest, p)
      | (false, p) => .ok ([arg], p)
  termination_by structural fuel => fuel

/-- `Parser.primary`: literals, parenthesised groups, identifiers,
array literals and object literals. -/
def pPrimary : Nat → PSt → Except String (Expr × PSt)
  | 0, _ => .error pFuelMsg
  | fuel + 1, p =>
      match pMatch1 p .FALSE with
      | (true, p) => .ok (.literal (.vbool false) (pPrevious p).line, p)
      | (false, p) =>
      match pMatch1 p .TRUE with
      | (true, p) => .ok (.literal (.vbool true) (pPrevious p).line, p)
      | (false, p) =>
      match pMatch1 p .NIL with
      | (true, p) => .ok (.literal .vnil (pPrevious p).line, p)
      | (false, p) =>
      match pMatchAny p [.NUMBER, .STRING] with
      | (true, p) => .ok (.literal (pPrevious p).lit (pPrevious p).line, p)
      | (false, p) =>
      match pMatch1 p .IDENTIFIER with
      | (true, p) =>
          .ok (.identifier (pPrevious p).lexeme (pPrevious p).line, p)
      | (false, p) =>
      match pMatch1 p .LEFT_PAREN with
      | (true, p) => do
          let (expr, p) ← pExpression fuel p
          let (_, p) ← pConsume p .RIGHT_PAREN "Expect ')' after expression."
          .ok (.grouping expr (pPrevious p).line, p)
      | (false, p) =>
      match pMatch1 p .LEFT_BRACKET with
      | (true, p) => pArrayLiteral fuel p
      | (false, p) =>
      match pMatch1 p .LEFT_BRACE with
      | (true, p) => pObjectLiteral fuel p
      | (false, _) => .error "Unexpected token. Expect expression."
  termination_by structural fuel => fuel

/-- `Parser.objectLiteral`: identifier keys with `:` values.  The Go
parser collects properties in a map, so a duplicate key overwrites the
earlier entry at PARSE time (only the last value expression survives);
the fold below reproduces that. -/
def pObjectLiteral : Nat → PSt → Except String (Expr × PSt)
  | 0, _ => .error pFuelMsg
  | fuel + 1, p => do
      let (props, p) ←
        if !(pCheck p .RIGHT_BRACE) && !(pIsAtEnd p) then pObjLoop fuel p
        else pure (([] : List (String × Expr)), p)
      let deduped := props.foldl
        (fun acc pr =>
          if acc.any (fun q => q.1 == pr.1) then
            acc.map (fun q => if q.1 == pr.1 then pr else q)
          else acc ++ [pr])
        ([] : List (String × Expr))
      let (_, p) ← pConsume p .RIGHT_BRACE "Expect '\x7d' after object literal."
      .ok (.objectLiteral deduped, p)
  termination_by structural fuel => fuel

def pObjLoop : Nat → PSt → Except String (List (String × Expr) × PSt)
  | 0, _ => .error pFuelMsg
  | fuel + 1, p => do
      let (propName, p) ← pConsume p .IDENTIFIER
        "Expect property name. Must be a string."
      let (_, p) ← pConsume p .COLON "Expect ':' after property name."
      let (propValue, p) ← pExpression fuel p
      match pMatch1 p .COMMA with
      | (true, p) =>
          if !(pCheck p .RIGHT_BRACE) && !(pIsAtEnd p) then do
            let (rest, p) ← pObjLoop fuel p
            .ok ((propName.lexeme, propValue) :: rest, p)
          else .ok ([(propName.lexeme, propValue)], p)
      | (false, p) => .ok ([(propName.lexeme, propValue)], p)
  termination_by structural fuel => fuel

/-- `Parser.arrayLiteral`. -/
def pArrayLiteral : Nat → PSt → Except String (Expr × PSt)
  | 0, _ => .error pFuelMsg
  | fuel + 1, p => do
      let (elems, p) ←
        if pCheck p .RIGHT_BRACKET then pure (([] : List Expr), p)
        else pArrLoop fuel p
      let (_, p) ← pConsume p .RIGHT_BRACKET "Expect ']' after array elements."
      .ok (.arrayLiteral elems, p)
  termination_by structural fuel => fuel

def pArrLoop : Nat → PSt → Except String (List Expr × PSt)
  | 0, _ => .error pFuelMsg
  | fuel + 1, p => do
      let (element, p) ← pExpression fuel p
      match pMatch1 p .COMMA with
      | (true, p) => do
          let (rest, p) ← pArrLoop fuel p
          .ok (element :: rest, p)
      | (false, p) => .ok ([element], p)
  termination_by structural fuel => fuel

end

/-- `Parser.Parse` on a fresh parser over a token list. -/
def parseTokens (fuel : Nat) (tokens : List Token) :
    Except String (List Expr) :=
  (pParse fuel ⟨tokens, 0⟩).map Prod.fst

end Borno

namespace Borno

/-! ## Environments (`environment/environment.go`) and interpreter state

Go environments are heap records linked by `Parent` pointers and user
functions are `*Function` heap pointers; the embedding stores both in
arenas indexed by allocation order, so an arena index is exactly a Go
pointer identity. -/

/-- One environment: the `Values` map (as an ordered association list;
Go map iteration order never matters here) and the optional parent. -/
structure EnvData where
  values : List (String × Value)
  parent : Option Nat
deriving Repr, DecidableEq

/-- A user function (`Function` in `interpreter/function.go`): its
declaration pieces plus the closure environment reference passed by
`NewFunction` at the declaration site. -/
structure FuncData where
  name : String
  params : List String
  body : List Expr
  closure : Nat
deriving Repr

/-- Interpreter state: the environment arena, the array and object
heaps, the function heap, and the lines written to standard output. -/
structure St where
  envs : List EnvData
  arrays : List (List Value)
  objects : List (List (String × Value))
  funcs : List FuncData
  output : List String
deriving Repr

/-- Go map write `m[name] = v`: overwrite the existing entry or insert. -/
def assocSet (vs : List (String × Value)) (name : String) (v : Value) :
    List (String × Value) :=
  if vs.any (fun pr => pr.1 == name) then
    vs.map (fun pr => if pr.1 == name then (name, v) else pr)
  else vs ++ [(name, v)]

/-- Allocate a fresh environment (`NewEnvironment` /
`NewEnvironmentWithParent`): its index is the next arena slot. -/
def allocEnv (st : St) (parent : Option Nat) : Nat × St :=
  (st.envs.length, { st with envs := st.envs ++ [⟨[], parent⟩] })

/-- `Environment.Define`: write into the current scope. -/
def envDefine (st : St) (envId : Nat) (name : String) (v : Value) : St :=
  match st.envs.get? envId with
  | none => st
  | some ed =>
      let ed2 : EnvData := { ed with values := assocSet ed.values name v }
      { st with envs := st.envs.set envId ed2 }

/-- `Environment.GetInCurrentScope`: current scope only. -/
def envGetInCurrentScope (st : St) (envId : Nat) (name : String) :
    Option Value :=
  match st.envs.get? envId with
  | none => none
  | some ed => ed.values.lookup name

/-- `Environment.Get`: nearest enclosing scope, walking `Parent`.  The
fuel bounds the walk; parents are always allocated before children, so
`st.envs.length` steps always suffice. -/
def envGetAux : Nat → St → Nat → String → Option Value
  | 0, _, _, _ => none
  | fuel + 1, st, envId, name =>
      match st.envs.get? envId with
      | none => none
      | some ed =>
          match ed.values.lookup name with
          | some v => some v
          | none =>
              match ed.parent with
              | none => none
              | some p => envGetAux fuel st p name

def envGet (st : St) (envId : Nat) (name : String) : Option Value :=
  envGetAux (st.envs.length + 1) st envId name

/-- `Environment.Assign`: write into the first scope up the parent
chain that defines the name; `none` means "Undefined variable". -/
def envAssignAux : Nat → St → Nat → String → Value → Option St
  | 0, _, _, _, _ => none
  | fuel + 1, st, envId, name, v =>
      match st.envs.get? envId with
      | none => none
      | some ed =>
          if ed.values.any (fun pr => pr.1 == name) then
            some (envDefine st envId name v)
          else
            match ed.parent with
            | none => none
            | some p => envAssignAux fuel st p name v

def envAssign (st : St) (envId : Nat) (name : String) (v : Value) :
    Option St :=
  envAssignAux (st.envs.length + 1) st envId name v

/-! ## Native builtins (`interpreter/nativeFunction*.go`) -/

/-- `Arity()` of each native callable, from the respective Go files;
`-1` is variadic. -/
def nativeArity : NativeFn → Int
  | .clock => 0 | .len => 1 | .append => -1 | .remove => 2
  | .delete => 2 | .keys => 1 | .values => 1 | .abs => 1 | .sqrt => 1
  | .pow => 2 | .sin => 1 | .cos => 1 | .tan => 1 | .min => -1
  | .max => -1 | .round => 1 | .input => -1

/-- `NativeLenFn.Call` (`interpreter/nativeFunctionArray.go` lines
8–21): exactly one argument, which must be a `[]interface{}` array;
returns `len(array)` — a host Go `int`, which is a distinct dynamic
type from both `int64` and `float64`. -/
def nativeLenCall (st : St) (args : List Value) : Except String Value :=
  match args with
  | [a] =>
      match a with
      | .varr r =>
          match st.arrays.get? r with
          | some arr => .ok (.vhostint arr.length)
          | none => .error "len function only works on arrays"
      | _ => .error "len function only works on arrays"
  | _ => .error "len function expects exactly 1 argument"

/-- Dispatch of `Callable.Call` for natives.  Only `len` is part of the
engineering core under study; the clock/input/math natives delegate to
the host platform library (spec §1 marks them out of scope) and no claim
invokes them, so they are mapped to an error sentinel here. -/
def callNative (st : St) (f : NativeFn) (args : List Value) :
    Except String (Value × St) :=
  match f with
  | .len => (nativeLenCall st args).map (fun v => (v, st))
  | _ => .error "host-delegated native builtin (out of scope)"

/-- `stringify` (`interpreter/interpreter.go`): `nil` for Go nil,
`string(v)` for `[]rune`, otherwise `fmt.Sprintf "%v"`.  The composite
cases (arrays, objects, callables) are printed nominally; every claim
prints only numbers and strings. -/
def stringify (st : St) : Value → String
  | .vnil => "nil"
  | .vrunes s => String.mk s
  | .vbool b => if b then "true" else "false"
  | .vint n => toString n
  | .vfloat q => goFmtFloat q
  | .vstr s => s
  | .vhostint n => toString n
  | .varr r => "[array " ++ toString r ++ "]"
  | .vobj r => "[object " ++ toString r ++ "]"
  | .vfun r =>
      match st.funcs.get? r with
      | some fd => "<function " ++ fd.name ++ ">"
      | none => "<function>"
  | .vnative _ => "<native fn>"

/-! ## The evaluator (`Interpreter.eval`, `interpreter/interpreter.go`)

One fuel-indexed mutual recursion; every recursive call spends one unit
of fuel, and exhaustion yields `Err.fuelOut`.  The value/signal pair
returned by each case mirrors the Go `(interface{}, *ControlFlowSignal)`
pair, with Go `nil` in the value slot rendered as `Value.vnil`. -/

/-- `ControlFlowSignal` (`interpreter/interpreter.go`): None, Break,
Continue (each carrying the statement's line) or Return carrying the
returned value. -/
inductive Signal where
  | sigNone
  | sigBreak (line : Nat)
  | sigContinue (line : Nat)
  | sigReturn (v : Value)
deriving DecidableEq, Repr

/-- The define/redeclare step of the `ast.VarStmt` case: `Define` when
`GetInCurrentScope` misses, "Cannot redeclare variable" otherwise. -/
def varDefineStep (st : St) (env : Nat) (name : String) (v : Value) :
    Except Err (Value × Signal × St) :=
  match envGetInCurrentScope st env name with
  | some _ => .error (.rte ("Cannot redeclare variable " ++ name ++ "."))
  | none => .ok (.vnil, .sigNone, envDefine st env name v)

/-! The evaluator is organised as a fuel-indexed fixpoint: `evalStep`
performs ONE dispatch of Go's `Interpreter.eval` switch, receiving the
evaluator for strictly smaller fuel as the callback `rec`; `evalExpr`
ties the knot by structural recursion on the fuel (so the kernel can
run it), and loop/list helpers recurse structurally on their own
argument.  Fuel bounds only the recursion depth and loop iteration
count of the embedding; `Err.fuelOut` is never a program behaviour. -/

/-- The type of the recursive evaluation callback:
expression/statement, current environment, state. -/
def EvalFn : Type :=
  Expr → Nat → St → Except Err (Value × Signal × St)

/-- Argument / element list evaluation inside `Call` and
`ArrayLiteral`: a non-None signal from an element aborts the whole
node with that signal (the Go code returns `(nil, signal)`).
Expressions never actually produce non-None signals, so the signal
slot is `sigNone` on every reachable path. -/
def evalArgsF (rec : EvalFn) : List Expr → Nat → St →
    Except Err (List Value × Signal × St)
  | [], _, st => .ok ([], .sigNone, st)
  | e :: rest, env, st => do
      let (v, sig, st) ← rec e env st
      if sig ≠ .sigNone then .ok ([], sig, st)
      else do
        let (vs, sig, st) ← evalArgsF rec rest env st
        .ok (v :: vs, sig, st)

/-- Object-literal property evaluation (the parser already collapsed
duplicate keys, mirroring the Go parser's map). -/
def evalPropsF (rec : EvalFn) : List (String × Expr) → Nat → St →
    Except Err (List (String × Value) × Signal × St)
  | [], _, st => .ok ([], .sigNone, st)
  | (k, e) :: rest, env, st => do
      let (v, sig, st) ← rec e env st
      if sig ≠ .sigNone then .ok ([], sig, st)
      else do
        let (vs, sig, st) ← evalPropsF rec rest env st
        .ok ((k, v) :: vs, sig, st)

/-- `VarListStmt` evaluation: each declarator in order. -/
def evalVarListF (rec : EvalFn) : List Expr → Nat → St →
    Except Err (Value × Signal × St)
  | [], _, st => .ok (.vnil, .sigNone, st)
  | d :: rest, env, st => do
      let (_, sig, st) ← rec d env st
      if sig ≠ .sigNone then .ok (.vnil, sig, st)
      else evalVarListF rec rest env st

/-- `BlockStmt` body: statements run in the child environment until
the first non-None signal. -/
def evalBlockListF (rec : EvalFn) : List Expr → Nat → St →
    Except Err (Value × Signal × St)
  | [], _, st => .ok (.vnil, .sigNone, st)
  | s :: rest, env, st => do
      let (_, sig, st) ← rec s env st
      if sig ≠ .sigNone then .ok (.vnil, sig, st)
      else evalBlockListF rec rest env st

/-- The body loop of a user-function call: a Return signal surfaces
its value; any other non-None signal ends the call with nil. -/
def evalFnBodyF (rec : EvalFn) : List Expr → Nat → St →
    Except Err (Value × St)
  | [], _, st => .ok (.vnil, st)
  | s :: rest, env, st => do
      let (_, sig, st) ← rec s env st
      match sig with
      | .sigReturn v => .ok (v, st)
      | .sigNone => evalFnBodyF rec rest env st
      | _ => .ok (.vnil, st)

/-- Modelled from the spec: the live `Function.Call` is absent from the
source tree — `interpreter/function.go` holds a stale generation whose
`NewFunction` takes no closure and whose `Call` parents the frame on
the globals, which does not even typecheck against the live caller
`eval` (`interpreter.go` line 236) that passes a closure environment.
Per spec §4.4: the call creates a new environment whose parent is the
callable's closure, binds the function's own name and then the
parameters in declaration order into it, and evaluates the body; a
Return signal yields the return value, and normal completion (or a
stray Break/Continue, as in the stale source) yields nil. -/
def functionCallF (rec : EvalFn) (fref : Nat) (fd : FuncData)
    (args : List Value) (st : St) : Except Err (Value × St) :=
  let (callEnvId, st) := allocEnv st (some fd.closure)
  let st := envDefine st callEnvId fd.name (.vfun fref)
  let st := (fd.params.zip args).foldl
    (fun st pr => envDefine st callEnvId pr.1 pr.2) st
  evalFnBodyF rec fd.body callEnvId st

/-- The `ast.While` loop (`interpreter/interpreter.go` lines 458–473),
translated faithfully: a signal from the CONDITION propagates; a Break
signal from the body exits the loop; ANY other body signal — including
Continue and, notably, Return — falls through and the loop re-evaluates
the condition. -/
def evalWhileLoopF (rec : EvalFn) : Nat → Expr → Expr → Nat → St →
    Except Err (Value × Signal × St)
  | 0, _, _, _, _ => .error .fuelOut
  | fuel + 1, cond, body, env, st => do
      let (cv, sig, st) ← rec cond env st
      if sig ≠ .sigNone then .ok (.vnil, sig, st)
      else if !isTruthy cv then .ok (.vnil, .sigNone, st)
      else do
        let (_, sig, st) ← rec body env st
        match sig with
        | .sigBreak _ => .ok (.vnil, .sigNone, st)
        | _ => evalWhileLoopF rec fuel cond body env st

/-- The `ast.ForStmt` loop (`interpreter/interpreter.go` lines
484–513): Break exits, Continue skips to the increment, any other
non-None signal (Return) propagates out; a non-None signal from the
increment also propagates. -/
def evalForLoopF (rec : EvalFn) : Nat → Option Expr → Option Expr →
    Expr → Nat → St → Except Err (Value × Signal × St)
  | 0, _, _, _, _, _ => .error .fuelOut
  | fuel + 1, cond, inc, body, env, st => do
      let (continueLoop, st, earlySig) ←
        match cond with
        | some condE => do
            let (cv, sig, st) ← rec condE env st
            if sig ≠ .sigNone then pure (false, st, sig)
            else pure (isTruthy cv, st, Signal.sigNone)
        | none => pure (true, st, Signal.sigNone)
      if earlySig ≠ .sigNone then .ok (.vnil, earlySig, st)
      else if !continueLoop then .ok (.vnil, .sigNone, st)
      else do
        let (_, sig, st) ← rec body env st
        match sig with
        | .sigBreak _ => .ok (.vnil, .sigNone, st)
        | .sigContinue _ | .sigNone => do
            let (st, incSig) ←
              match inc with
              | some incE => do
                  let (_, sig, st) ← rec incE env st
                  pure (st, sig)
              | none => pure (st, Signal.sigNone)
            if incSig ≠ .sigNone then .ok (.vnil, incSig, st)
            else evalForLoopF rec fuel cond inc body env st
        | s => .ok (.vnil, s, st)

/-- One dispatch step of `Interpreter.eval`
(`interpreter/interpreter.go`), case for case; `rec` evaluates
sub-terms (at the next smaller fuel) and `loopFuel` bounds loop
iterations. -/
def evalStep (rec : EvalFn) (loopFuel : Nat) (e : Expr) (env : Nat)
    (st : St) : Except Err (Value × Signal × St) :=
  match e with
  | .literal v _ => .ok (v, .sigNone, st)
  | .grouping inner _ => rec inner env st
  | .identifier name _ =>
      match envGet st env name with
      | some v => .ok (v, .sigNone, st)
      | none =>
          .error (.rte ("Variable " ++ name ++ " is not defined."))
  | .unary op right _ => do
      let (rv, sig, st) ← rec right env st
      if sig ≠ .sigNone then .ok (.vnil, sig, st)
      else do
        let v ← evaluateUnary op rv
        .ok (v, .sigNone, st)
  | .binary left op right _ => do
      let (lv, sig, st) ← rec left env st
      if sig ≠ .sigNone then .ok (.vnil, sig, st)
      else do
        let (rv, sig, st) ← rec right env st
        if sig ≠ .sigNone then .ok (.vnil, sig, st)
        else do
          let v ← evaluateBinary lv op rv
          .ok (v, .sigNone, st)
  | .logical left op right => do
      let (lv, sig, st) ← rec left env st
      if sig ≠ .sigNone then .ok (.vnil, sig, st)
      else if op = .LOGICAL_OR then
        if isTruthy lv then .ok (lv, .sigNone, st)
        else rec right env st
      else
        if !isTruthy lv then .ok (lv, .sigNone, st)
        else rec right env st
  | .call callee _ args => do
      let (calleeVal, sig, st) ← rec callee env st
      if sig ≠ .sigNone then .ok (.vnil, sig, st)
      else
        match calleeVal with
        | .vfun fref =>
            match st.funcs.get? fref with
            | none => .error (.rte "Can only call functions.")
            | some fd =>
                if args.length ≠ fd.params.length then
                  .error (.rte ("Expected " ++
                    toString fd.params.length ++ " arguments but " ++
                    toString args.length ++ "."))
                else do
                  let (argVals, sig, st) ← evalArgsF rec args env st
                  if sig ≠ .sigNone then .ok (.vnil, sig, st)
                  else do
                    let (result, st) ← functionCallF rec fref fd argVals st
                    .ok (result, .sigNone, st)
        | .vnative nf =>
            if nativeArity nf ≠ -1 ∧
                (args.length : Int) ≠ nativeArity nf then
              .error (.rte ("Expected " ++ toString (nativeArity nf) ++
                " arguments but " ++ toString args.length ++ "."))
            else do
              let (argVals, sig, st) ← evalArgsF rec args env st
              if sig ≠ .sigNone then .ok (.vnil, sig, st)
              else
                match callNative st nf argVals with
                | .ok (v, st) => .ok (v, .sigNone, st)
                | .error msg =>
                    .error (.rte ("Function call failed: " ++ msg))
        | _ => .error (.rte "Can only call functions.")
  | .arrayLiteral elems => do
      let (vals, sig, st) ← evalArgsF rec elems env st
      if sig ≠ .sigNone then .ok (.vnil, sig, st)
      else
        let r := st.arrays.length
        .ok (.varr r, .sigNone, { st with arrays := st.arrays ++ [vals] })
  | .arrayAccess arrE idxE _ => do
      let (arrV, sig, st) ← rec arrE env st
      if sig ≠ .sigNone then .ok (.vnil, sig, st)
      else do
        let (idxV, sig, st) ← rec idxE env st
        if sig ≠ .sigNone then .ok (.vnil, sig, st)
        else
          match arrV with
          | .varr r =>
              match toInt64 idxV with
              | .error _ => .error (.rte "Array index must be an integer.")
              | .ok idx =>
                  match st.arrays.get? r with
                  | none => .error (.rte "Invalid array access. Not an array.")
                  | some arr =>
                      if idx < 0 ∨ (arr.length : Int) ≤ idx then
                        .error (.rte "Array index out of bounds.")
                      else
                        .ok (arr.getD idx.toNat .vnil, .sigNone, st)
          | _ => .error (.rte "Invalid array access. Not an array.")
  | .arrayAssignment arrE idxE valE _ => do
      let (arrV, sig, st) ← rec arrE env st
      if sig ≠ .sigNone then .ok (.vnil, sig, st)
      else do
        let (idxV, sig, st) ← rec idxE env st
        if sig ≠ .sigNone then .ok (.vnil, sig, st)
        else do
          let (newV, sig, st) ← rec valE env st
          if sig ≠ .sigNone then .ok (.vnil, sig, st)
          else
            match arrV with
            | .varr r =>
                match toInt64 idxV with
                | .error _ =>
                    .error (.rte "Array index must be an integer.")
                | .ok idx =>
                    match st.arrays.get? r with
                    | none =>
                        .error (.rte "Invalid array assignment. Not an array.")
                    | some arr =>
                        if idx < 0 ∨ (arr.length : Int) ≤ idx then
                          .error (.rte "Array index out of bounds.")
                        else
                          let st2 : St := { st with
                            arrays := st.arrays.set r (arr.set idx.toNat newV) }
                          .ok (newV, .sigNone, st2)
            | _ => .error (.rte "Invalid array assignment. Not an array.")
  | .objectLiteral props => do
      let (pairs, sig, st) ← evalPropsF rec props env st
      if sig ≠ .sigNone then .ok (.vnil, sig, st)
      else
        let r := st.objects.length
        .ok (.vobj r, .sigNone, { st with objects := st.objects ++ [pairs] })
  | .propertyAccess objE prop _ => do
      let (objV, sig, st) ← rec objE env st
      if sig ≠ .sigNone then .ok (.vnil, sig, st)
      else
        match objV with
        | .vobj r =>
            match (st.objects.getD r []).lookup prop with
            | some v => .ok (v, .sigNone, st)
            | none =>
                .error (.rte ("Property '" ++ prop ++
                  "' does not exist on object."))
        | _ => .error (.rte "Invalid property access. Not an object.")
  | .propertyAssignment objE prop valE _ => do
      let (objV, sig, st) ← rec objE env st
      if sig ≠ .sigNone then .ok (.vnil, sig, st)
      else
        match objV with
        | .vobj r => do
            let (newV, sig, st) ← rec valE env st
            if sig ≠ .sigNone then .ok (.vnil, sig, st)
            else
              let st2 : St := { st with
                objects := st.objects.set r
                  (assocSet (st.objects.getD r []) prop newV) }
              .ok (newV, .sigNone, st2)
        | _ => .error (.rte "Invalid object assignment. Not an object.")
  | .exprStmt inner => do
      let (v, sig, st) ← rec inner env st
      if sig ≠ .sigNone then .ok (.vnil, sig, st)
      else .ok (v, .sigNone, st)
  | .printStmt inner => do
      let (v, sig, st) ← rec inner env st
      if sig ≠ .sigNone then .ok (v, sig, st)
      else
        .ok (.vnil, .sigNone,
          { st with output := st.output ++ [stringify st v] })
  | .varStmt name init _ =>
      match init with
      | some initE => do
          let (v, sig, st) ← rec initE env st
          if sig ≠ .sigNone then .ok (.vnil, sig, st)
          else varDefineStep st env name v
      | none => varDefineStep st env name .vnil
  | .varListStmt decls => evalVarListF rec decls env st
  | .assignmentStmt name valE _ => do
      let (v, sig, st) ← rec valE env st
      if sig ≠ .sigNone then .ok (.vnil, sig, st)
      else
        match envAssign st env name v with
        | some st => .ok (v, .sigNone, st)
        | none => .error (.rte ("Undefined variable '" ++ name ++ "'."))
  | .blockStmt stmts =>
      let (newEnv, st) := allocEnv st (some env)
      evalBlockListF rec stmts newEnv st
  | .ifStmt cond thenB elseB => do
      let (cv, sig, st) ← rec cond env st
      if sig ≠ .sigNone then .ok (.vnil, sig, st)
      else if isTruthy cv then do
        let (_, sig, st) ← rec thenB env st
        if sig ≠ .sigNone then .ok (.vnil, sig, st)
        else .ok (.vnil, .sigNone, st)
      else
        match elseB with
        | some eb => do
            let (_, sig, st) ← rec eb env st
            if sig ≠ .sigNone then .ok (.vnil, sig, st)
            else .ok (.vnil, .sigNone, st)
        | none => .ok (.vnil, .sigNone, st)
  | .whileStmt cond body => evalWhileLoopF rec loopFuel cond body env st
  | .forStmt initz cond inc body => do
      let (st, earlySig) ←
        match initz with
        | some initS => do
            let (_, sig, st) ← rec initS env st
            pure (st, sig)
        | none => pure (st, Signal.sigNone)
      if earlySig ≠ .sigNone then .ok (.vnil, earlySig, st)
      else evalForLoopF rec loopFuel cond inc body env st
  | .breakStmt line => .ok (.vnil, .sigBreak line, st)
  | .continueStmt line => .ok (.vnil, .sigContinue line, st)
  | .returnStmt value =>
      match value with
      | some valE => do
          let (v, sig, st) ← rec valE env st
          if sig ≠ .sigNone then .ok (.vnil, sig, st)
          else .ok (.vnil, .sigReturn v, st)
      | none => .ok (.vnil, .sigReturn .vnil, st)
  | .functionStmt name params body =>
      let (closureId, st) := allocEnv st (some env)
      let fref := st.funcs.length
      let st := { st with funcs := st.funcs ++ [⟨name, params, body, closureId⟩] }
      .ok (.vnil, .sigNone, envDefine st env name (.vfun fref))

/-- `Interpreter.eval`: the fuel-indexed fixpoint of `evalStep`. -/
def evalExpr : Nat → Expr → Nat → St → Except Err (Value × Signal × St)
  | 0, _, _, _ => .error .fuelOut
  | fuel + 1, e, env, st => evalStep (evalExpr fuel) fuel e env st

/-- The global environment populated by `NewInterpreter`
(`interpreter/interpreter.go` lines 27–57): the seventeen native
bindings. -/
def globalsEnv : EnvData :=
  ⟨[("ক্লক", .vnative .clock), ("লেন", .vnative .len),
    ("এড", .vnative .append), ("রিমুভ", .vnative .remove),
    ("কি_রিমুভ", .vnative .delete), ("অব্জেক্ট_কি", .vnative .keys),
    ("অব্জেক্ট_মান", .vnative .values), ("পরমমান", .vnative .abs),
    ("বর্গমূল", .vnative .sqrt), ("ঘাত", .vnative .pow),
    ("সাইন", .vnative .sin), ("কসাইন", .vnative .cos),
    ("ট্যান", .vnative .tan), ("সর্বনিম্ন", .vnative .min),
    ("সর্বোচ্চ", .vnative .max), ("রাউন্ড", .vnative .round),
    ("ইনপুট", .vnative .input)], none⟩

/-- The per-`Interpret` statement loop: a Break/Continue/Return signal
escaping a top-level statement is a runtime error; result values are
collected in order. -/
def interpretLoop (fuel : Nat) : List Expr → Nat → St →
    Except Err (List Value × St)
  | [], _, st => .ok ([], st)
  | s :: rest, env, st => do
      let (v, sig, st) ← evalExpr fuel s env st
      match sig with
      | .sigBreak _ => .error (.rte "Unexpected 'break' outside of loop.")
      | .sigContinue _ =>
          .error (.rte "Unexpected 'continue' outside of loop.")
      | .sigReturn _ =>
          .error (.rte "Unexpected 'return' outside of function.")
      | .sigNone => do
          let (vs, st) ← interpretLoop fuel rest env st
          .ok (v :: vs, st)

/-- `Interpreter.Interpret` over a fresh interpreter (non-REPL): the
global environment is arena slot 0 and the top-level environment
(`NewEnvironmentWithParent(i.globals)`) is slot 1. -/
def interpret (fuel : Nat) (statements : List Expr) :
    Except Err (List Value × St) :=
  let st0 : St := ⟨[globalsEnv], [], [], [], []⟩
  let (envId, st) := allocEnv st0 (some 0)
  interpretLoop fuel statements envId st

end Borno

namespace Borno

/-! ## Claim verification

Helper projections and concrete Borno programs (hand-written ASTs, as
the live parser would produce them) used by the claim theorems. -/

/-- A float literal value, as the scanner produces for a numeral. -/
def vfl (n : Int) : Value := .vfloat ⟨n, 1⟩

/-- Numeric-tag test: Go `int64` or `float64`. -/
def isNumV : Value → Bool
  | .vint _ => true
  | .vfloat _ => true
  | _ => false

/-- The numeric value carried by a number (`toNumber`'s successful
result); 0 for non-numbers, where it is never used. -/
def numQ : Value → Fq
  | .vint n => qOfInt n
  | .vfloat q => q
  | _ => ⟨0, 1⟩

/-- Lines printed by a program run (a sentinel on failure). -/
def outputOf (r : Except Err (List Value × St)) : List String :=
  match r with
  | .ok pr => pr.2.output
  | .error _ => ["<runtime failure>"]

/-- Per-statement result values of a program run. -/
def resultsOf (r : Except Err (List Value × St)) : Option (List Value) :=
  match r with
  | .ok pr => some pr.1
  | .error _ => none

/-- The parent pointer of every environment allocated by a run, in
allocation order (index 0 is the global environment). -/
def envParentsOf (r : Except Err (List Value × St)) :
    Option (List (Option Nat)) :=
  match r with
  | .ok pr => some (pr.2.envs.map (fun ed => ed.parent))
  | .error _ => none

/-- The Go panic message a run crashed with, if any. -/
def panicOf (r : Except Err (List Value × St)) : Option String :=
  match r with
  | .error (.goPanic m) => some m
  | _ => none

/-- Spec §8 scenario 3, the closure counter:
`ফাংশন মিটার() { ধরি n = 0; ফাংশন inc() { n = n + 1; ফেরত n; } ফেরত inc; }
ধরি c = মিটার(); দেখাও c(); দেখাও c(); দেখাও c();` (ASCII names). -/
def counterProg : List Expr :=
  [.functionStmt "mk" []
     [.varStmt "n" (some (.literal (vfl 0) 1)) 1,
      .functionStmt "inc" []
        [.assignmentStmt "n"
           (.binary (.identifier "n" 2) .PLUS (.literal (vfl 1) 2) 2) 2,
         .returnStmt (some (.identifier "n" 2))],
      .returnStmt (some (.identifier "inc" 3))],
   .varStmt "c" (some (.call (.identifier "mk" 4) 4 [])) 4,
   .printStmt (.call (.identifier "c" 5) 5 []),
   .printStmt (.call (.identifier "c" 6) 6 []),
   .printStmt (.call (.identifier "c" 7) 7 [])]

/-- `ফাংশন f() {} f();` — the smallest declaration-plus-call program. -/
def declCallProg : List Expr :=
  [.functionStmt "f" [] [],
   .exprStmt (.call (.identifier "f" 2) 2 [])]

/-- `ফাংশন f() { ধরি i = 0; যতক্ষণ (i < 1) { i = i + 1; ফেরত 42; }
ফেরত 0; } f();` — a Return issued inside a While body. -/
def whileReturnProg : List Expr :=
  [.functionStmt "f" []
     [.varStmt "i" (some (.literal (vfl 0) 1)) 1,
      .whileStmt (.binary (.identifier "i" 2) .LESS (.literal (vfl 1) 2) 2)
        (.blockStmt
          [.assignmentStmt "i"
             (.binary (.identifier "i" 3) .PLUS (.literal (vfl 1) 3) 3) 3,
           .returnStmt (some (.literal (vfl 42) 4))]),
      .returnStmt (some (.literal (vfl 0) 5))],
   .exprStmt (.call (.identifier "f" 6) 6 [])]

/-- `ধরি i = 0; যতক্ষণ (i < 5) { যদি (i == 2) { থামো; } i = i + 1; } i;` -/
def whileBreakProg : List Expr :=
  [.varStmt "i" (some (.literal (vfl 0) 1)) 1,
   .whileStmt (.binary (.identifier "i" 2) .LESS (.literal (vfl 5) 2) 2)
     (.blockStmt
       [.ifStmt (.binary (.identifier "i" 3) .EQUAL_EQUAL (.literal (vfl 2) 3) 3)
          (.blockStmt [.breakStmt 3]) none,
        .assignmentStmt "i"
          (.binary (.identifier "i" 4) .PLUS (.literal (vfl 1) 4) 4) 4]),
   .exprStmt (.identifier "i" 5)]

/-- `ধরি i = 0; ধরি s = 0; যতক্ষণ (i < 3) { i = i + 1;
যদি (i == 2) { চালিয়ে_যাও; } s = s + i; } s;` -/
def whileContinueProg : List Expr :=
  [.varStmt "i" (some (.literal (vfl 0) 1)) 1,
   .varStmt "s" (some (.literal (vfl 0) 1)) 1,
   .whileStmt (.binary (.identifier "i" 2) .LESS (.literal (vfl 3) 2) 2)
     (.blockStmt
       [.assignmentStmt "i"
          (.binary (.identifier "i" 3) .PLUS (.literal (vfl 1) 3) 3) 3,
        .ifStmt (.binary (.identifier "i" 4) .EQUAL_EQUAL (.literal (vfl 2) 4) 4)
          (.blockStmt [.continueStmt 4]) none,
        .assignmentStmt "s"
          (.binary (.identifier "s" 5) .PLUS (.identifier "i" 5) 5) 5]),
   .exprStmt (.identifier "s" 6)]

/-- `ধরি a = [1]; a == a;` — comparing an array with itself. -/
def arraySelfEqProg : List Expr :=
  [.varStmt "a" (some (.arrayLiteral [.literal (vfl 1) 1])) 1,
   .exprStmt (.binary (.identifier "a" 2) .EQUAL_EQUAL (.identifier "a" 2) 2)]

/-- C1 (counterexample): the claim says a call creates an environment
whose parent IS the environment active at the function's declaration
site.  Running `declCallProg`: arena slot 0 is the globals, slot 1 the
top-level environment in which `f` is declared, slot 2 the closure
environment `NewFunction` receives (`interpreter.go` line 236 allocates
it as a FRESH child of slot 1), and slot 3 the call frame.  The call
frame's parent is 2 — the closure — and 2 ≠ 1, so the parent is NOT the
declaration-site environment itself. -/
theorem call_frame_parent_differs_from_decl_env :
    envParentsOf (interpret 16 declCallProg) =
      some [none, some 0, some 1, some 2] ∧
    (some 2 : Option Nat) ≠ some 1 := by
  constructor <;> decide

/-- C1 (amended): a user-function call creates a new environment whose
parent is the callable's closure — itself a fresh child of the
declaration-site environment — so a function returned from an enclosing
call still reaches the enclosing call's locals through the chain, and
successive invocations observe the accumulated state.  `counterProg`
prints 1, 2, 3 across three invocations of the returned closure, and
the arena parents show the three call frames (slots 5, 6, 7) all
hanging off the closure (slot 4) whose parent is the enclosing call's
frame (slot 3). -/
theorem call_frames_hang_off_closure_and_state_accumulates :
    outputOf (interpret 16 counterProg) = ["1", "2", "3"] ∧
    envParentsOf (interpret 16 counterProg) =
      some [none, some 0, some 1, some 2, some 3, some 4, some 4, some 4] := by
  constructor <;> decide

/-- C2: the `ast.While` case of `eval` checks the body's signal only
for Break, so a Return signal is SWALLOWED and the loop re-evaluates
the condition, while Break and Continue behave as specified:
`whileReturnProg`'s call evaluates to 0 even though the body executed
`ফেরত 42;` (the claim, the spec, and the sibling `ast.ForStmt` case say
Return must propagate out of the loop to the call, which would yield
42); `whileBreakProg` leaves the loop at i = 2; `whileContinueProg`
skips one accumulation and yields s = 4. -/
theorem while_swallows_return_break_continue_behave :
    resultsOf (interpret 16 whileReturnProg) = some [.vnil, vfl 0] ∧
    resultsOf (interpret 16 whileBreakProg) = some [.vnil, .vnil, vfl 2] ∧
    resultsOf (interpret 16 whileContinueProg) =
      some [.vnil, .vnil, .vnil, vfl 4] := by
  refine ⟨by decide, by decide, by decide⟩

/-- C3: the scanner's keyword table has NO entry for `দেখাও`, so
`Scanner.identifier` emits IDENTIFIER for that lexeme — although the
spec's §4.1 table and the scanner's own test
(`lexer/scanner_test.go`, "Variable declaration and print") map it to
PRINT.  The mechanism itself works: `print` and `ধরি` do lex as their
keywords. -/
theorem dekhao_lexes_as_identifier_not_print :
    identifierTokenType "দেখাও" = .IDENTIFIER ∧
    scannerKeywords.lookup "দেখাও" = none ∧
    identifierTokenType "print" = .PRINT ∧
    identifierTokenType "ধরি" = .VAR ∧
    identifierTokenType "যতক্ষণ" = .WHILE := by
  refine ⟨rfl, by decide, rfl, rfl, rfl⟩

/-- C4 (counterexample): the claim says the int64 `1` equals the
float64 `1.0` after promotion; `isEqual` is Go `==` on `interface{}`
values, whose dynamic types differ, so `1 == 1.0` evaluates to false. -/
theorem int_one_not_equal_float_one :
    evaluateBinary (.vint 1) .EQUAL_EQUAL (.vfloat ⟨1, 1⟩) =
      .ok (.vbool false) := rfl

/-- C4 (amended): numeric equality never promotes across tags —
a mixed int64/float64 comparison is ALWAYS false, regardless of the
mathematical values; equality holds only between two values of the
same tag with equal content. -/
theorem equality_requires_matching_numeric_tag :
    ∀ (n m : Int) (a b : Fq),
    isEqual (.vint n) (.vfloat a) = some false ∧
    isEqual (.vfloat a) (.vint n) = some false ∧
    isEqual (.vint n) (.vint m) = some (n == m) ∧
    isEqual (.vfloat a) (.vfloat b) = some (qEq a b) ∧
    evaluateBinary (.vint n) .EQUAL_EQUAL (.vfloat a) = .ok (.vbool false) := by
  intro n m a b
  exact ⟨rfl, rfl, rfl, rfl, rfl⟩

/-- C5: `v == v` does NOT terminate normally for every non-nil value:
`isEqual` is Go `==`, and comparing two `interface{}` values of an
identical NON-comparable dynamic type — `[]rune` string literals,
`[]interface{}` arrays, `map[string]interface{}` objects — panics at
run time, crashing the interpreter; `arraySelfEqProg` (`ধরি a = [1];
a == a;`) dies with that panic.  Reflexivity does hold for the
comparable tags (booleans, same-tag numbers, Go strings). -/
theorem self_equality_panics_on_rune_strings_arrays_objects :
    (∀ s : List Char, isEqual (.vrunes s) (.vrunes s) = none) ∧
    (∀ r : Nat, isEqual (.varr r) (.varr r) = none) ∧
    (∀ r : Nat, isEqual (.vobj r) (.vobj r) = none) ∧
    panicOf (interpret 16 arraySelfEqProg) =
      some "runtime error: comparing uncomparable type" ∧
    (∀ b : Bool, isEqual (.vbool b) (.vbool b) = some true) ∧
    (∀ n : Int, isEqual (.vint n) (.vint n) = some true) ∧
    (∀ s : String, isEqual (.vstr s) (.vstr s) = some true) := by
  refine ⟨fun s => rfl, fun r => rfl, fun r => rfl, by decide,
    fun b => by cases b <;> rfl, fun n => by simp [isEqual],
    fun s => by simp [isEqual]⟩

/-- C6 (counterexample): adding the int64 values 1 and 2 yields the
FLOAT 3.0 (`handleAddition` converts both operands with `toNumber` and
adds as float64), not an int64-tagged 3 as the claim states. -/
theorem int_plus_int_yields_float_tag :
    handleAddition (.vint 1) (.vint 2) = .ok (.vfloat ⟨3, 1⟩) ∧
    (Value.vfloat ⟨3, 1⟩ ≠ Value.vint 3) := by
  refine ⟨rfl, by decide⟩

/-- C6 (amended): `+` on two numbers always carries the float64 tag —
the sum of the mathematical values — whatever the operand tags were. -/
theorem addition_of_two_numbers_is_always_float :
    ∀ x y : Value, isNumV x = true → isNumV y = true →
    handleAddition x y = .ok (.vfloat (qAdd (numQ x) (numQ y))) := by
  intro x y hx hy
  cases x <;> cases y <;> simp_all [isNumV, numQ, handleAddition, toNumber]

/-- C6 witness: the amended addition law at int64 1 and 2. -/
theorem addition_of_two_numbers_is_always_float_witness :
    isNumV (.vint 1) = true ∧ isNumV (.vint 2) = true ∧
    handleAddition (.vint 1) (.vint 2) =
      .ok (.vfloat (qAdd (numQ (.vint 1)) (numQ (.vint 2)))) :=
  ⟨rfl, rfl, addition_of_two_numbers_is_always_float (.vint 1) (.vint 2) rfl rfl⟩

/-- C7 (counterexample): a Go-string operand whose digit-folded text
parses as a number is SILENTLY COERCED: `"42" * 2.0` multiplies to
84.0 instead of raising an operand-type error.  (Such Go strings arise
from concatenation results and from `ইনপুট`.) -/
theorem numeric_go_string_operand_coerced :
    evaluateBinary (.vstr "42") .STAR (.vfloat ⟨2, 1⟩) =
      .ok (.vfloat ⟨84, 1⟩) := rfl

/-- C7 (amended): an operand that `toNumber`/`toInt64` cannot convert
makes the operator report a runtime error naming the offending side
("Left/Right operand must be a number/an integer."), and a `[]rune`
string literal is never coerced; but a Go-string operand (from
concatenation or input) IS silently coerced to a number whenever its
digit-folded text parses as a float — including Bengali numerals. -/
theorem operand_type_violations_error_naming_side :
    (∀ (x y : Value) (op : TokenType) (ex : String),
      toNumber x = .error ex →
      handleArithmetic x op y = .error (.rte "Left operand must be a number.") ∧
      handleComparison x op y = .error (.rte "Left operand must be a number.")) ∧
    (∀ (x y : Value) (op : TokenType) (q : Fq) (ey : String),
      toNumber x = .ok q → toNumber y = .error ey →
      handleArithmetic x op y = .error (.rte "Right operand must be a number.") ∧
      handleComparison x op y = .error (.rte "Right operand must be a number.")) ∧
    (∀ (x y : Value) (op : TokenType) (ex : String),
      toInt64 x = .error ex →
      handleBitwise x op y = .error (.rte "Left operand must be an integer.")) ∧
    (∀ (x y : Value) (op : TokenType) (n : Int) (ey : String),
      toInt64 x = .ok n → toInt64 y = .error ey →
      handleBitwise x op y = .error (.rte "Right operand must be an integer.")) ∧
    (∀ s : List Char,
      toNumber (.vrunes s) = .error "expected a number, got non-number") ∧
    toNumber (.vstr "42") = .ok ⟨42, 1⟩ ∧
    toNumber (.vstr "৪২") = .ok ⟨42, 1⟩ := by
  refine ⟨?_, ?_, ?_, ?_, fun s => rfl, rfl, rfl⟩
  · intro x y op ex h
    constructor <;> simp [handleArithmetic, handleComparison, h]
  · intro x y op q ey hx hy
    constructor <;> simp [handleArithmetic, handleComparison, hx, hy]
  · intro x y op ex h
    simp [handleBitwise, h]
  · intro x y op n ey hx hy
    simp [handleBitwise, hx, hy]

/-- C7 witness: the naming-the-side law applied at a `[]rune` string
literal on the left of `*` and a nil on the right of `<`. -/
theorem operand_type_violations_error_naming_side_witness :
    handleArithmetic (.vrunes ['a']) .STAR (.vfloat ⟨1, 1⟩) =
      .error (.rte "Left operand must be a number.") ∧
    handleComparison (.vfloat ⟨5, 1⟩) .LESS .vnil =
      .error (.rte "Right operand must be a number.") ∧
    handleBitwise (.vbool true) .AND (.vint 1) =
      .error (.rte "Left operand must be an integer.") :=
  ⟨(operand_type_violations_error_naming_side.1 (.vrunes ['a']) (.vfloat ⟨1, 1⟩)
      .STAR _ rfl).1,
   (operand_type_violations_error_naming_side.2.1 (.vfloat ⟨5, 1⟩) .vnil
      .LESS ⟨5, 1⟩ _ rfl rfl).2,
   operand_type_violations_error_naming_side.2.2.1 (.vbool true) (.vint 1)
      .AND _ rfl⟩

/-- C8: for numeric operands, `/` and `%` raise the runtime error
"Division by zero." exactly when the right operand's value is zero and
produce no numeric result; otherwise `/` yields the float quotient and
`%` the `math.Mod` remainder. -/
theorem division_and_modulo_error_exactly_on_zero_divisor :
    ∀ x y : Value, isNumV x = true → isNumV y = true →
    ((qIsZero (numQ y) = true →
        evaluateBinary x .SLASH y = .error (.rte "Division by zero.") ∧
        evaluateBinary x .MODULO y = .error (.rte "Division by zero.")) ∧
     (qIsZero (numQ y) = false →
        evaluateBinary x .SLASH y = .ok (.vfloat (qDiv (numQ x) (numQ y))) ∧
        evaluateBinary x .MODULO y = .ok (.vfloat (goMod (numQ x) (numQ y))))) := by
  intro x y hx hy
  cases x <;> cases y <;>
    simp_all [evaluateBinary, handleArithmetic, toNumber, numQ, isNumV] <;>
    constructor <;> intro h <;> simp_all

/-- C8 witness: `10.0 / 0.0` and `10.0 % 0.0` error; `10.0 / 4.0` and
`10.0 % 4.0` produce the quotient and remainder. -/
theorem division_and_modulo_error_exactly_on_zero_divisor_witness :
    (evaluateBinary (.vfloat ⟨10, 1⟩) .SLASH (.vfloat ⟨0, 1⟩) =
       .error (.rte "Division by zero.") ∧
     evaluateBinary (.vfloat ⟨10, 1⟩) .MODULO (.vfloat ⟨0, 1⟩) =
       .error (.rte "Division by zero.")) ∧
    (evaluateBinary (.vfloat ⟨10, 1⟩) .SLASH (.vfloat ⟨4, 1⟩) =
       .ok (.vfloat (qDiv ⟨10, 1⟩ ⟨4, 1⟩)) ∧
     evaluateBinary (.vfloat ⟨10, 1⟩) .MODULO (.vfloat ⟨4, 1⟩) =
       .ok (.vfloat (goMod ⟨10, 1⟩ ⟨4, 1⟩))) :=
  ⟨(division_and_modulo_error_exactly_on_zero_divisor
      (.vfloat ⟨10, 1⟩) (.vfloat ⟨0, 1⟩) rfl rfl).1 rfl,
   (division_and_modulo_error_exactly_on_zero_divisor
      (.vfloat ⟨10, 1⟩) (.vfloat ⟨4, 1⟩) rfl rfl).2 rfl⟩

/-- C9: a program that declares a variable (`VAR`) or a function
(`FUN`) under any of §6's built-in names fails to parse, with an error
naming the reserved identifier; `Parse` returns that error and no
statement list, whatever tokens follow. -/
theorem reserved_identifier_declarations_fail_to_parse :
    ∀ (name : String), name ∈ reservedIdentifiers →
    ∀ (rest : List Token) (line : Nat) (f : Nat),
    pParse (f + 1 + 1 + 1 + 1)
        ⟨⟨.VAR, "ধরি", .vnil, line⟩ ::
          ⟨.IDENTIFIER, name, .vnil, line⟩ :: rest, 0⟩ =
      .error ("'" ++ name ++
        "' is a reserved identifier and cannot be used as a variable name.") ∧
    pParse (f + 1 + 1 + 1 + 1)
        ⟨⟨.FUN, "ফাংশন", .vnil, line⟩ ::
          ⟨.IDENTIFIER, name, .vnil, line⟩ :: rest, 0⟩ =
      .error ("'" ++ name ++
        "' is a reserved identifier and cannot be used as a function name.") := by
  intro name h rest line f
  constructor <;>
    simp [pParse, pDeclaration, pVarDeclaration, pVarDeclLoop, pFunction,
      pMatch1, pCheck, pIsAtEnd, pPeek, pAdvance, pConsume, h, eofTok,
      Bind.bind, Except.bind]

/-- C9 witness: declaring `ধরি লেন ...` or `ফাংশন লেন ...` is a parse
error naming `লেন`. -/
theorem reserved_identifier_declarations_fail_to_parse_witness :
    ("লেন" ∈ reservedIdentifiers) ∧
    pParse 4 ⟨[⟨.VAR, "ধরি", .vnil, 1⟩, ⟨.IDENTIFIER, "লেন", .vnil, 1⟩,
        eofTok], 0⟩ =
      .error "'লেন' is a reserved identifier and cannot be used as a variable name." ∧
    pParse 4 ⟨[⟨.FUN, "ফাংশন", .vnil, 1⟩, ⟨.IDENTIFIER, "লেন", .vnil, 1⟩,
        eofTok], 0⟩ =
      .error "'লেন' is a reserved identifier and cannot be used as a function name." :=
  ⟨by decide,
   (reserved_identifier_declarations_fail_to_parse "লেন" (by decide)
      [eofTok] 1 0).1,
   (reserved_identifier_declarations_fail_to_parse "লেন" (by decide)
      [eofTok] 1 0).2⟩

/-- C10: `NativeLenFn.Call` returns the host Go `int` (a dynamic type
distinct from both numeric tags): `toNumber` and `toInt64` reject it,
and every arithmetic or comparison operator applied to it reports an
operand-type error naming the side — never a number or boolean. -/
theorem len_returns_host_int_unusable_as_operand :
    (∀ (st : St) (r : Nat) (arr : List Value),
      st.arrays.get? r = some arr →
      nativeLenCall st [.varr r] = .ok (.vhostint arr.length)) ∧
    (∀ n : Int, toNumber (.vhostint n) =
      .error "expected a number, got non-number") ∧
    (∀ n : Int, toInt64 (.vhostint n) =
      .error "expected an integer, got non-integer") ∧
    (∀ (n : Int) (v : Value) (op : TokenType),
      op ∈ ([.MINUS, .STAR, .SLASH, .MODULO, .POWER,
             .GREATER, .GREATER_EQUAL, .LESS, .LESS_EQUAL] : List TokenType) →
      evaluateBinary (.vhostint n) op v =
        .error (.rte "Left operand must be a number.")) ∧
    (∀ (n : Int) (v : Value),
      evaluateBinary (.vhostint n) .PLUS v =
        .error (.rte "Operands must be numbers or strings.")) ∧
    (∀ (n : Int) (q : Fq) (op : TokenType),
      op ∈ ([.MINUS, .STAR, .SLASH, .MODULO, .POWER,
             .GREATER, .GREATER_EQUAL, .LESS, .LESS_EQUAL] : List TokenType) →
      evaluateBinary (.vfloat q) op (.vhostint n) =
        .error (.rte "Right operand must be a number.")) ∧
    (∀ (n : Int) (q : Fq),
      evaluateBinary (.vfloat q) .PLUS (.vhostint n) =
        .error (.rte "Operands must be numbers or strings.")) := by
  refine ⟨?_, fun n => rfl, fun n => rfl, ?_, fun n v => rfl, ?_, fun n q => rfl⟩
  · intro st r arr h
    simp only [nativeLenCall]
    rw [h]
  · intro n v op hop
    fin_cases hop <;> rfl
  · intro n q op hop
    fin_cases hop <;> rfl

/-- C10 witness: `লেন` on a one-element array yields the host int 1,
and using that value under `+` and `>` errors as the theorem states. -/
theorem len_returns_host_int_unusable_as_operand_witness :
    nativeLenCall ⟨[globalsEnv], [[vfl 7]], [], [], []⟩ [.varr 0] =
      .ok (.vhostint 1) ∧
    evaluateBinary (.vhostint 1) .PLUS (.vfloat ⟨1, 1⟩) =
      .error (.rte "Operands must be numbers or strings.") ∧
    evaluateBinary (.vhostint 1) .GREATER (.vfloat ⟨0, 1⟩) =
      .error (.rte "Left operand must be a number.") :=
  ⟨len_returns_host_int_unusable_as_operand.1
      ⟨[globalsEnv], [[vfl 7]], [], [], []⟩ 0 [vfl 7] rfl,
   len_returns_host_int_unusable_as_operand.2.2.2.2.1 1 (.vfloat ⟨1, 1⟩),
   len_returns_host_int_unusable_as_operand.2.2.2.1 1 (.vfloat ⟨0, 1⟩)
      .GREATER (by decide)⟩

end Borno
